import Mathlib

/-!
# Prostruct backend: OAuth token lifecycle and authenticated request wrapper

A shallow embedding of `src/backend/server.js`.

* JavaScript strings are Lean `String`s; a property that may be `undefined`
  or `null` is an `Option`.
* `Date.now()` is a natural number of milliseconds since the epoch; stored
  expiry instants are integers, because the lifetime returned by the token
  endpoint is an arbitrary integer number of seconds.
* Network calls are answered by functions passed as arguments, and every
  operation returns, next to its result, the credential store it leaves and
  the list of calls it issued.
-/

namespace Prostruct

/-! ## Data model -/

/-- The in-memory credential set `tokens` (server.js lines 13-17). -/
structure Tokens where
  access_token : Option String
  refresh_token : Option String
  expires_at : Option Int
deriving DecidableEq, Repr

/-- Payload `error.response.data` of a failed HTTP call: its `error` field and
the rest of the payload, kept as text. -/
structure ErrorData where
  error : Option String
  body : String
deriving DecidableEq, Repr

/-- The `error.response` object of a failed HTTP call. `data` is `none` when
the response carries no (truthy) payload. -/
structure ErrorResponse where
  status : Int
  data : Option ErrorData
deriving DecidableEq, Repr

/-- A thrown JavaScript value, with the three properties the server reads:
`message`, `status` and `response`. -/
structure JsError where
  message : String
  status : Option Int
  response : Option ErrorResponse
deriving DecidableEq, Repr

/-- The form posted to the token endpoint by `getAccessToken`
(server.js lines 37-42). -/
structure TokenRequest where
  url : String
  grant_type : String
  client_id : Option String
  client_secret : Option String
  refresh_token : Option String
deriving DecidableEq, Repr

/-- The `response.data` of a successful token-endpoint call: the new access
token, the lifetime in seconds and, possibly, a new refresh token. -/
structure TokenData where
  access_token : String
  refresh_token : Option String
  expires_in : Int
deriving DecidableEq, Repr

/-- The two variables of `process.env` read by the token code. -/
structure Config where
  HUBSPOT_CLIENT_ID : Option String
  HUBSPOT_CLIENT_SECRET : Option String
deriving DecidableEq, Repr

/-- What a call of `getAccessToken` produces: the value returned or thrown,
the credential set afterwards, and the token-endpoint calls made. -/
structure TokenOutcome where
  result : Except JsError String
  tokens : Tokens
  tokenCalls : List TokenRequest

/-! ## JavaScript truthiness -/

/-- Truthiness of a string-or-absent value: absent and `''` are falsy. -/
def truthyStr : Option String → Bool
  | some s => s != ""
  | none => false

/-- Truthiness of a number-or-absent value: absent and `0` are falsy. -/
def truthyNum : Option Int → Bool
  | some n => n != 0
  | none => false

/-- The expression `a || b` on string-or-absent values. -/
def orStr (a b : Option String) : Option String :=
  if truthyStr a then a else b

/-! ## Token refresher (server.js lines 20-66) -/

/-- The value `new Error('AUTH_REQUIRED')`. -/
def authRequiredError : JsError :=
  { message := "AUTH_REQUIRED", status := none, response := none }

/-- The function `isAuthenticated`: `!!tokens.refresh_token`. -/
def isAuthenticated (tokens : Tokens) : Bool :=
  truthyStr tokens.refresh_token

/-- The test of line 56:
`error.response?.status === 400 && error.response?.data?.error === 'invalid_grant'`. -/
def isInvalidGrant (error : JsError) : Bool :=
  match error.response with
  | some r =>
    r.status == 400 &&
      (match r.data with
       | some d => d.error == some "invalid_grant"
       | none => false)
  | none => false

/-- The request built on lines 37-44. -/
def refreshRequest (cfg : Config) (tokens : Tokens) : TokenRequest :=
  { url := "https://api.hubapi.com/oauth/v1/token"
    grant_type := "refresh_token"
    client_id := cfg.HUBSPOT_CLIENT_ID
    client_secret := cfg.HUBSPOT_CLIENT_SECRET
    refresh_token := tokens.refresh_token }

/-- Lines 32-65 of `getAccessToken`: the path taken when the stored access
token cannot be used. `post` answers the token-endpoint call. -/
def refreshAccessToken (cfg : Config) (post : TokenRequest → Except JsError TokenData)
    (now : Nat) (tokens : Tokens) : TokenOutcome :=
  if !truthyStr tokens.refresh_token then
    { result := .error authRequiredError, tokens := tokens, tokenCalls := [] }
  else
    let req := refreshRequest cfg tokens
    match post req with
    | .ok data =>
      { result := .ok data.access_token
        tokens :=
          { access_token := some data.access_token
            refresh_token := orStr data.refresh_token tokens.refresh_token
            expires_at := some ((now : Int) + data.expires_in * 1000) }
        tokenCalls := [req] }
    | .error error =>
      if isInvalidGrant error then
        { result := .error authRequiredError
          tokens := { access_token := none, refresh_token := none, expires_at := none }
          tokenCalls := [req] }
      else
        { result := .error error, tokens := tokens, tokenCalls := [req] }

/-- The function `getAccessToken` (lines 26-66). `now` is the value of
`Date.now()` read on line 27. -/
def getAccessToken (cfg : Config) (post : TokenRequest → Except JsError TokenData)
    (now : Nat) (tokens : Tokens) : TokenOutcome :=
  match tokens.access_token, tokens.expires_at with
  | some a, some e =>
    if truthyStr (some a) && truthyNum (some e) && decide ((now : Int) < e) then
      { result := .ok a, tokens := tokens, tokenCalls := [] }
    else refreshAccessToken cfg post now tokens
  | _, _ => refreshAccessToken cfg post now tokens

/-! ## Authenticated request wrapper (server.js lines 68-94) -/

/-- The `config` object handed to `axios` on lines 78-85. -/
structure ApiRequest (β : Type) where
  method : String
  url : String
  headers : List (String × String)
  data : Option β

/-- What a call of `hubspotRequest` produces. -/
structure RequestOutcome (β ρ : Type) where
  result : Except JsError ρ
  tokens : Tokens
  tokenCalls : List TokenRequest
  apiCalls : List (ApiRequest β)

/-- The object thrown on line 89. -/
def reauthorizeError : JsError :=
  { message := "Authentication required. Please authorize the application."
    status := some 401
    response := none }

/-- The `catch` block of `hubspotRequest` (lines 87-93): the value rethrown. -/
def hubspotCatch (error : JsError) : JsError :=
  if error.message = "AUTH_REQUIRED" then reauthorizeError else error

/-- The request assembled on lines 72-83. -/
def apiRequest {β : Type} (accessToken endpoint method : String) (data : Option β) :
    ApiRequest β :=
  { method := method
    url := "https://api.hubapi.com" ++ endpoint
    headers := [("Authorization", "Bearer " ++ accessToken),
                ("Content-Type", "application/json")]
    data := data }

/-- The function `hubspotRequest` (lines 69-94). `send` answers the upstream
API call. -/
def hubspotRequest {β ρ : Type} (cfg : Config)
    (post : TokenRequest → Except JsError TokenData)
    (send : ApiRequest β → Except JsError ρ)
    (now : Nat) (tokens : Tokens)
    (endpoint : String) (method : String) (data : Option β) : RequestOutcome β ρ :=
  let t := getAccessToken cfg post now tokens
  match t.result with
  | .error error =>
    { result := .error (hubspotCatch error), tokens := t.tokens
      tokenCalls := t.tokenCalls, apiCalls := [] }
  | .ok accessToken =>
    let config := apiRequest accessToken endpoint method data
    match send config with
    | .ok responseData =>
      { result := .ok responseData, tokens := t.tokens
        tokenCalls := t.tokenCalls, apiCalls := [config] }
    | .error error =>
      { result := .error (hubspotCatch error), tokens := t.tokens
        tokenCalls := t.tokenCalls, apiCalls := [config] }

/-! ## JavaScript string operations used by the route handlers -/

/-- White space and line terminators removed by `String.prototype.trim`. -/
def isJsWhitespace (c : Char) : Bool :=
  let n := c.toNat
  n == 0x9 || n == 0xA || n == 0xB || n == 0xC || n == 0xD || n == 0x20 ||
  n == 0xA0 || n == 0x1680 || (0x2000 ≤ n && n ≤ 0x200A) || n == 0x2028 ||
  n == 0x2029 || n == 0x202F || n == 0x205F || n == 0x3000 || n == 0xFEFF

/-- The method `s.trim()`. -/
def jsTrim (s : String) : String :=
  String.mk ((((s.data.dropWhile isJsWhitespace).reverse).dropWhile isJsWhitespace).reverse)

/-- Splitting a character sequence at every occurrence of `sep`. -/
def splitChars (sep : Char) : List Char → List (List Char)
  | [] => [[]]
  | c :: cs =>
    if c = sep then [] :: splitChars sep cs
    else
      match splitChars sep cs with
      | [] => [[c]]
      | piece :: pieces => (c :: piece) :: pieces

/-- The method `s.split(sep)` for a one-character separator. -/
def jsSplit (s : String) (sep : Char) : List String :=
  (splitChars sep s.data).map String.mk

/-- Joining character sequences with `sep` between neighbours. -/
def joinChars (sep : Char) : List (List Char) → List Char
  | [] => []
  | [x] => x
  | x :: y :: rest => x ++ sep :: joinChars sep (y :: rest)

/-- The method `xs.join(sep)` for a one-character separator. -/
def jsJoin (xs : List String) (sep : Char) : String :=
  String.mk (joinChars sep (xs.map String.data))

/-- The expression `a || ''` on a string-or-absent value. -/
def orEmpty (a : Option String) : String :=
  (orStr a (some "")).getD ""

/-! ## Upstream data seen by the route handlers -/

/-- The `properties` object of a contact. -/
structure ContactProperties where
  firstname : Option String
  lastname : Option String
  email : Option String
  phone : Option String
  address : Option String
  city : Option String
  state : Option String
  zip : Option String
  project_role : Option String
deriving DecidableEq, Repr

/-- A contact as listed by the upstream API. -/
structure Contact where
  id : String
  properties : ContactProperties
deriving DecidableEq, Repr

/-- One entry of the `options` array of the custom property. -/
structure PropertyOption where
  label : String
  value : String
deriving DecidableEq, Repr

/-- The object `propertyData` (lines 379-393 and 495-509). -/
structure PropertyData where
  name : String
  label : String
  type : String
  fieldType : String
  groupName : String
  options : List PropertyOption
deriving DecidableEq, Repr

/-- Request bodies sent by the handlers: a contact `{ properties }`, the
property definition, or the update `{ properties: { project_role } }`. -/
inductive ReqBody
  | contact (properties : ContactProperties)
  | property (propertyData : PropertyData)
  | update (project_role : String)
deriving DecidableEq, Repr

/-- A parsed upstream response body: its `results` array when it has one, and
the remaining content kept as text. -/
structure ApiData where
  results : Option (List Contact)
  text : String
deriving DecidableEq, Repr

/-- The answers of the outside world during one request, indexed by the
number of `hubspotRequest` calls the handler has already made: the clock
reading, the token endpoint and the upstream API. -/
structure Upstream where
  now : Nat → Nat
  post : Nat → TokenRequest → Except JsError TokenData
  send : Nat → ApiRequest ReqBody → Except JsError ApiData

/-- A `hubspotRequest` call that threw: its endpoint, its method and the value
thrown. -/
structure Failure where
  endpoint : String
  method : String
  error : JsError
deriving DecidableEq, Repr

/-- The process state while a handler runs: the credential set, how many
`hubspotRequest` calls were made, the calls issued so far, and the
`hubspotRequest` calls that threw. -/
structure Run where
  tokens : Tokens
  step : Nat
  tokenCalls : List TokenRequest
  apiCalls : List (ApiRequest ReqBody)
  failures : List Failure

/-- A handler starting on the credential set `tokens`. -/
def Run.start (tokens : Tokens) : Run :=
  { tokens := tokens, step := 0, tokenCalls := [], apiCalls := [], failures := [] }

/-- One `await hubspotRequest(endpoint, method, data)` inside a handler. -/
def request (cfg : Config) (up : Upstream) (s : Run)
    (endpoint : String) (method : String) (data : Option ReqBody) :
    Except JsError ApiData × Run :=
  let o := hubspotRequest cfg (up.post s.step) (up.send s.step) (up.now s.step)
    s.tokens endpoint method data
  (o.result,
    { tokens := o.tokens, step := s.step + 1
      tokenCalls := s.tokenCalls ++ o.tokenCalls
      apiCalls := s.apiCalls ++ o.apiCalls
      failures :=
        match o.result with
        | .ok _ => s.failures
        | .error error =>
          s.failures ++ [{ endpoint := endpoint, method := method, error := error }] })

/-! ## Responses -/

/-- The `address` object of a formatted contact. -/
structure Address where
  street : String
  city : String
  state : String
  zip : String
deriving DecidableEq, Repr

/-- The `coordinates` object of a formatted contact. The source computes it in
floating point from `Math.random()`; here the draws are rationals. -/
structure Coordinates where
  lat : ℚ
  lng : ℚ
deriving DecidableEq

/-- An element of `formattedContacts` (lines 163-180). -/
structure FormattedContact where
  id : String
  name : String
  email : String
  phone : String
  address : Address
  roles : List String
  coordinates : Coordinates
deriving DecidableEq

/-- The value of `error.response?.data || error.message` (line 196). -/
inductive Details
  | payload (data : ErrorData)
  | message (text : String)
deriving DecidableEq, Repr

/-- The JSON bodies the handlers send. Constant fields are not stored:
* `authRequired`: `{ success: false, error, authRequired: true }`
* `fetchFailed`: `{ success: false, error: 'Failed to fetch contacts from HubSpot', details }`
* `failed`: `{ success: false, error }`
* `formatted`: the array `formattedContacts`
* `populated`: `{ success: true, contacts }`
* `propertyCreated`: `{ success: true, created: true, property }`
* `propertyExists`: `{ success: true, created: false, message: 'Property already exists' }`
* `assigned`: `{ success: true, assignments }`
* `initialized`: `{ success: true, message: 'Initialization complete', contactsCreated, rolesAssigned }` -/
inductive ResBody
  | authRequired (error : String)
  | fetchFailed (details : Details)
  | failed (error : String)
  | formatted (contacts : List FormattedContact)
  | populated (contacts : List ApiData)
  | propertyCreated (property : ApiData)
  | propertyExists
  | assigned (assignments : List ApiData)
  | initialized (contactsCreated : Nat) (rolesAssigned : Nat)
deriving DecidableEq

/-- The field `authRequired` of a body, when it has one. -/
def ResBody.authRequiredField : ResBody → Option Bool
  | .authRequired _ => some true
  | _ => none

/-- The field `success` of a body, when it has one. -/
def ResBody.successField : ResBody → Option Bool
  | .authRequired _ => some false
  | .fetchFailed _ => some false
  | .failed _ => some false
  | .formatted _ => none
  | _ => some true

/-- The field `details` of a body, when it has one. -/
def ResBody.detailsField : ResBody → Option Details
  | .fetchFailed details => some details
  | _ => none

/-- The field `error` of a body, when it has one. -/
def ResBody.errorField : ResBody → Option String
  | .authRequired error => some error
  | .fetchFailed _ => some "Failed to fetch contacts from HubSpot"
  | .failed error => some error
  | _ => none

/-- An HTTP response `res.status(status).json(body)`. -/
structure Response where
  status : Nat
  body : ResBody
deriving DecidableEq

/-- What handling one request produces: the response sent and the process
state afterwards. -/
structure Handled where
  response : Response
  run : Run

/-! ## Route handlers (server.js lines 138-608) -/

/-- The authentication guard at the top of every handler (lines 142-146,
205-209, 359-363, 416-420, 475-479). -/
def unauthenticatedResponse : Response :=
  { status := 401, body := .authRequired "Authentication required" }

/-- The `catch` block of the contacts-with-roles handler (lines 184-198). -/
def contactsCatch (error : JsError) : Response :=
  if error.status = some 401 then
    { status := 401, body := .authRequired error.message }
  else
    { status := 500
      body := .fetchFailed
        (match error.response.bind (fun r => r.data) with
         | some data => .payload data
         | none => .message error.message) }

/-- The `catch` block shared, text for text, by the populate-contacts,
create-project-role-property, assign-roles and initialize handlers
(lines 343-352, 400-409, 459-468, 598-607). -/
def setupCatch (error : JsError) : Response :=
  if error.status = some 401 then
    { status := 401, body := .authRequired error.message }
  else
    { status := 500, body := .failed error.message }

/-- A `try { ... } catch (error) { ... }` around a handler body: the body
either sends a response or throws. -/
def tryCatch (catchBlock : JsError → Response) (body : Except JsError Response × Run) :
    Handled :=
  match body.1 with
  | .ok response => { response := response, run := body.2 }
  | .error error => { response := catchBlock error, run := body.2 }

/-- The filter callback of lines 154-156:
`project_role && project_role.trim() !== ''`. -/
def hasProjectRole (contact : Contact) : Bool :=
  truthyStr contact.properties.project_role &&
    (jsTrim (contact.properties.project_role.getD "") != "")

/-- The map callback of lines 159-181; `r1` and `r2` are the two values of
`Math.random()` it draws. -/
def formatContact (r1 r2 : ℚ) (contact : Contact) : FormattedContact :=
  let roles :=
    if truthyStr contact.properties.project_role then
      jsSplit (contact.properties.project_role.getD "") ';'
    else []
  { id := contact.id
    name := jsTrim (orEmpty contact.properties.firstname ++ " " ++
      orEmpty contact.properties.lastname)
    email := orEmpty contact.properties.email
    phone := orEmpty contact.properties.phone
    address :=
      { street := orEmpty contact.properties.address
        city := orEmpty contact.properties.city
        state := orEmpty contact.properties.state
        zip := orEmpty contact.properties.zip }
    roles := roles
    coordinates := { lat := 37 + r1 * 8 - 4, lng := -100 + r2 * 30 - 15 } }

/-- The call `contactsWithRoles.map(...)`: the contact at position `i` draws
`random (k + 2 * i)` and `random (k + 2 * i + 1)`. -/
def formatContacts (random : Nat → ℚ) : Nat → List Contact → List FormattedContact
  | _, [] => []
  | k, contact :: rest =>
    formatContact (random k) (random (k + 1)) contact :: formatContacts random (k + 2) rest

/-- The body of the `try` block of `GET /api/contacts-with-roles`
(lines 141-183). -/
def contactsWithRolesBody (cfg : Config) (up : Upstream) (random : Nat → ℚ) (s : Run) :
    Except JsError Response × Run :=
  if !isAuthenticated s.tokens then (.ok unauthenticatedResponse, s)
  else
    match request cfg up s
      "/crm/v3/objects/contacts?limit=100&properties=firstname,lastname,email,phone,address,city,state,zip,project_role"
      "GET" none with
    | (.error error, s1) => (.error error, s1)
    | (.ok contactsResponse, s1) =>
      let contacts := contactsResponse.results.getD []
      let contactsWithRoles := contacts.filter hasProjectRole
      let formattedContacts := formatContacts random 0 contactsWithRoles
      (.ok { status := 200, body := .formatted formattedContacts }, s1)

/-- The handler `app.get('/api/contacts-with-roles', ...)` (lines 139-199). -/
def getContactsWithRoles (cfg : Config) (up : Upstream) (random : Nat → ℚ)
    (tokens : Tokens) : Handled :=
  tryCatch contactsCatch (contactsWithRolesBody cfg up random (Run.start tokens))

/-- The array `mockContacts` of the populate-contacts handler (lines 212-333). -/
def populateMockContacts : List ContactProperties :=
  [
  { firstname := some "John", lastname := some "Doe", email := some "john.doe@example.com"
    phone := some "(123) 456-7890", address := some "123 Main St", city := some "San Diego"
    state := some "CA", zip := some "92101", project_role := none },
  { firstname := some "Jane", lastname := some "Smith", email := some "jane.smith@example.com"
    phone := some "(234) 567-8901", address := some "456 Oak Ave", city := some "Los Angeles"
    state := some "CA", zip := some "90001", project_role := none },
  { firstname := some "Robert", lastname := some "Johnson", email := some "robert.johnson@example.com"
    phone := some "(345) 678-9012", address := some "789 Pine St", city := some "San Francisco"
    state := some "CA", zip := some "94102", project_role := none },
  { firstname := some "Emily", lastname := some "Williams", email := some "emily.williams@example.com"
    phone := some "(456) 789-0123", address := some "101 Cedar Rd", city := some "Seattle"
    state := some "WA", zip := some "98101", project_role := none },
  { firstname := some "Michael", lastname := some "Brown", email := some "michael.brown@example.com"
    phone := some "(567) 890-1234", address := some "202 Elm St", city := some "Portland"
    state := some "OR", zip := some "97201", project_role := none },
  { firstname := some "Sarah", lastname := some "Davis", email := some "sarah.davis@example.com"
    phone := some "(678) 901-2345", address := some "303 Birch Ave", city := some "Denver"
    state := some "CO", zip := some "80201", project_role := none },
  { firstname := some "David", lastname := some "Miller", email := some "david.miller@example.com"
    phone := some "(789) 012-3456", address := some "404 Maple Dr", city := some "Phoenix"
    state := some "AZ", zip := some "85001", project_role := none },
  { firstname := some "Lisa", lastname := some "Wilson", email := some "lisa.wilson@example.com"
    phone := some "(890) 123-4567", address := some "505 Spruce Ln", city := some "Dallas"
    state := some "TX", zip := some "75201", project_role := none },
  { firstname := some "James", lastname := some "Taylor", email := some "james.taylor@example.com"
    phone := some "(901) 234-5678", address := some "606 Willow Rd", city := some "Austin"
    state := some "TX", zip := some "73301", project_role := none },
  { firstname := some "Jennifer", lastname := some "Anderson", email := some "jennifer.anderson@example.com"
    phone := some "(012) 345-6789", address := some "707 Ash St", city := some "Boston"
    state := some "MA", zip := some "02108", project_role := none } ]

/-- The loop of lines 337-340: post every contact, stopping at the first
failure. -/
def postContacts (cfg : Config) (up : Upstream) :
    List ContactProperties → Run → List ApiData → Except JsError (List ApiData) × Run
  | [], s, results => (.ok results, s)
  | contact :: rest, s, results =>
    match request cfg up s "/crm/v3/objects/contacts" "POST" (some (.contact contact)) with
    | (.error error, s1) => (.error error, s1)
    | (.ok result, s1) => postContacts cfg up rest s1 (results ++ [result])

/-- The body of the `try` block of `POST /api/populate-contacts`
(lines 204-342). -/
def populateContactsBody (cfg : Config) (up : Upstream) (s : Run) :
    Except JsError Response × Run :=
  if !isAuthenticated s.tokens then (.ok unauthenticatedResponse, s)
  else
    match postContacts cfg up populateMockContacts s [] with
    | (.error error, s1) => (.error error, s1)
    | (.ok results, s1) => (.ok { status := 200, body := .populated results }, s1)

/-- The handler `app.post('/api/populate-contacts', ...)` (lines 202-353). -/
def postPopulateContacts (cfg : Config) (up : Upstream) (tokens : Tokens) : Handled :=
  tryCatch setupCatch (populateContactsBody cfg up (Run.start tokens))

/-- The constant `propertyData` (lines 379-393 and 495-509). -/
def propertyData : PropertyData :=
  { name := "project_role"
    label := "Project Role"
    type := "enumeration"
    fieldType := "checkbox"
    groupName := "contactinformation"
    options :=
      [ { label := "Contractor", value := "contractor" },
        { label := "Home Owner", value := "home_owner" },
        { label := "Affiliate", value := "affiliate" },
        { label := "Referral Partner", value := "referral_partner" },
        { label := "Community Partner", value := "community_partner" },
        { label := "Geo Tech", value := "geo_tech" } ] }

/-- The property lookup of lines 367-375 and 483-491: the value of
`propertyExists`, or the error rethrown when the lookup fails with anything
but a 404 response. -/
def checkPropertyExists (cfg : Config) (up : Upstream) (s : Run) :
    Except JsError Bool × Run :=
  match request cfg up s "/crm/v3/properties/contacts/project_role" "GET" none with
  | (.ok _, s1) => (.ok true, s1)
  | (.error error, s1) =>
    if error.response.map (fun r => r.status) ≠ some 404 then (.error error, s1)
    else (.ok false, s1)

/-- The body of the `try` block of `POST /api/create-project-role-property`
(lines 358-399). -/
def createProjectRolePropertyBody (cfg : Config) (up : Upstream) (s : Run) :
    Except JsError Response × Run :=
  if !isAuthenticated s.tokens then (.ok unauthenticatedResponse, s)
  else
    match checkPropertyExists cfg up s with
    | (.error error, s1) => (.error error, s1)
    | (.ok propertyExists, s1) =>
      if !propertyExists then
        match request cfg up s1 "/crm/v3/properties/contacts" "POST"
            (some (.property propertyData)) with
        | (.error error, s2) => (.error error, s2)
        | (.ok result, s2) => (.ok { status := 200, body := .propertyCreated result }, s2)
      else (.ok { status := 200, body := .propertyExists }, s1)

/-- The handler `app.post('/api/create-project-role-property', ...)`
(lines 356-410). -/
def postCreateProjectRoleProperty (cfg : Config) (up : Upstream) (tokens : Tokens) :
    Handled :=
  tryCatch setupCatch (createProjectRolePropertyBody cfg up (Run.start tokens))

/-- The constant `roleAssignments` (lines 428-439 and 559-570). -/
def roleAssignments : List (List String) :=
  [ ["contractor", "home_owner"],
    ["geo_tech"],
    ["affiliate", "referral_partner"],
    ["community_partner"],
    ["geo_tech", "contractor"],
    ["home_owner"],
    ["affiliate"],
    ["referral_partner", "community_partner"],
    ["contractor"],
    ["geo_tech", "community_partner"] ]

/-- The object `updateData` of lines 448-452 and 578-582. -/
def updateData (roles : List String) : ReqBody :=
  .update (jsJoin roles ';')

/-- The loop of lines 444-456 over `contacts[i]`, `roleAssignments[i]` for
`i < contacts.length && i < roleAssignments.length`, stopping at the first
failure. -/
def assignRoles (cfg : Config) (up : Upstream) :
    List Contact → List (List String) → Run → List ApiData →
      Except JsError (List ApiData) × Run
  | contact :: contacts, roles :: assignments, s, results =>
    match request cfg up s ("/crm/v3/objects/contacts/" ++ contact.id) "PATCH"
        (some (updateData roles)) with
    | (.error error, s1) => (.error error, s1)
    | (.ok result, s1) => assignRoles cfg up contacts assignments s1 (results ++ [result])
  | _, _, s, results => (.ok results, s)

/-- The body of the `try` block of `POST /api/assign-roles` (lines 415-458). -/
def assignRolesBody (cfg : Config) (up : Upstream) (s : Run) :
    Except JsError Response × Run :=
  if !isAuthenticated s.tokens then (.ok unauthenticatedResponse, s)
  else
    match request cfg up s "/crm/v3/objects/contacts?limit=20" "GET" none with
    | (.error error, s1) => (.error error, s1)
    | (.ok contactsResponse, s1) =>
      let contacts := contactsResponse.results.getD []
      match assignRoles cfg up contacts roleAssignments s1 [] with
      | (.error error, s2) => (.error error, s2)
      | (.ok results, s2) => (.ok { status := 200, body := .assigned results }, s2)

/-- The handler `app.post('/api/assign-roles', ...)` (lines 413-469). -/
def postAssignRoles (cfg : Config) (up : Upstream) (tokens : Tokens) : Handled :=
  tryCatch setupCatch (assignRolesBody cfg up (Run.start tokens))

/-- The array `mockContacts` of the initialize handler (lines 515-541). -/
def initializeMockContacts : List ContactProperties :=
  [
  { firstname := some "John", lastname := some "Doe", email := some "john.doe@example.com"
    phone := some "(123) 456-7890", address := some "123 Main St", city := some "San Diego"
    state := some "CA", zip := some "92101", project_role := none },
  { firstname := some "Jennifer", lastname := some "Anderson", email := some "jennifer.anderson@example.com"
    phone := some "(012) 345-6789", address := some "707 Ash St", city := some "Boston"
    state := some "MA", zip := some "02108", project_role := none } ]

/-- The loop of lines 543-552: post every contact; a failure is logged and the
loop goes on. -/
def createContacts (cfg : Config) (up : Upstream) :
    List ContactProperties → Run → List ApiData → List ApiData × Run
  | [], s, createdContacts => (createdContacts, s)
  | contact :: rest, s, createdContacts =>
    match request cfg up s "/crm/v3/objects/contacts" "POST" (some (.contact contact)) with
    | (.error _, s1) => createContacts cfg up rest s1 createdContacts
    | (.ok result, s1) => createContacts cfg up rest s1 (createdContacts ++ [result])

/-- The loop of lines 573-590: one update per contact and role list; a failure
is logged and the loop goes on. -/
def assignRolesLenient (cfg : Config) (up : Upstream) :
    List Contact → List (List String) → Run → List ApiData → List ApiData × Run
  | contact :: contacts, roles :: assignments, s, roleResults =>
    match request cfg up s ("/crm/v3/objects/contacts/" ++ contact.id) "PATCH"
        (some (updateData roles)) with
    | (.error _, s1) => assignRolesLenient cfg up contacts assignments s1 roleResults
    | (.ok result, s1) =>
      assignRolesLenient cfg up contacts assignments s1 (roleResults ++ [result])
  | _, _, s, roleResults => (roleResults, s)

/-- The body of the `try` block of `POST /api/initialize` (lines 474-597). -/
def initializeBody (cfg : Config) (up : Upstream) (s : Run) :
    Except JsError Response × Run :=
  if !isAuthenticated s.tokens then (.ok unauthenticatedResponse, s)
  else
    match checkPropertyExists cfg up s with
    | (.error error, s1) => (.error error, s1)
    | (.ok propertyExists, s1) =>
      let created : Except JsError Unit × Run :=
        if !propertyExists then
          match request cfg up s1 "/crm/v3/properties/contacts" "POST"
              (some (.property propertyData)) with
          | (.error error, s2) => (.error error, s2)
          | (.ok _, s2) => (.ok (), s2)
        else (.ok (), s1)
      match created with
      | (.error error, s2) => (.error error, s2)
      | (.ok _, s2) =>
        let (createdContacts, s3) := createContacts cfg up initializeMockContacts s2 []
        match request cfg up s3 "/crm/v3/objects/contacts?limit=20" "GET" none with
        | (.error error, s4) => (.error error, s4)
        | (.ok contactsResponse, s4) =>
          let contacts := contactsResponse.results.getD []
          let (roleResults, s5) := assignRolesLenient cfg up contacts roleAssignments s4 []
          (.ok { status := 200
                 body := .initialized createdContacts.length roleResults.length }, s5)

/-- The handler `app.post('/api/initialize', ...)` (lines 472-608). -/
def postInitialize (cfg : Config) (up : Upstream) (tokens : Tokens) : Handled :=
  tryCatch setupCatch (initializeBody cfg up (Run.start tokens))

/-! ## Authorization callback and process start (server.js lines 12-17, 110-136) -/

/-- The form posted to the token endpoint by the `/oauth-callback` handler
(lines 115-121). -/
structure CodeRequest where
  url : String
  grant_type : String
  client_id : Option String
  client_secret : Option String
  redirect_uri : String
  code : Option String
deriving DecidableEq, Repr

/-- What handling `GET /oauth-callback` produces: the redirect target, the
credential set afterwards and the token-endpoint calls made. -/
structure CallbackOutcome where
  redirect : String
  tokens : Tokens
  codeCalls : List CodeRequest

/-- The request built on lines 115-123. -/
def codeRequest (cfg : Config) (code : Option String) : CodeRequest :=
  { url := "https://api.hubapi.com/oauth/v1/token"
    grant_type := "authorization_code"
    client_id := cfg.HUBSPOT_CLIENT_ID
    client_secret := cfg.HUBSPOT_CLIENT_SECRET
    redirect_uri := "http://localhost:5000/oauth-callback"
    code := code }

/-- The handler `app.get('/oauth-callback', ...)` (lines 111-136). `exchange`
answers the token-endpoint call, `code` is `req.query.code` and `now` is the
value of `Date.now()` read on line 128. -/
def getOauthCallback (cfg : Config) (exchange : CodeRequest → Except JsError TokenData)
    (now : Nat) (code : Option String) (tokens : Tokens) : CallbackOutcome :=
  let req := codeRequest cfg code
  match exchange req with
  | .ok data =>
    { redirect := "http://localhost:3000?auth=success"
      tokens :=
        { access_token := some data.access_token
          refresh_token := data.refresh_token
          expires_at := some ((now : Int) + data.expires_in * 1000) }
      codeCalls := [req] }
  | .error _ =>
    { redirect := "http://localhost:3000?auth=error", tokens := tokens, codeCalls := [req] }

/-- The object an identifier `env` would have to denote on lines 14-16, with
the three properties read there. -/
structure EnvObject where
  accessToken : Option String
  refresh_token : Option String
  expires_at : Option Int
deriving DecidableEq, Repr

/-- The initializer of `tokens` (lines 13-17). It reads `env.accessToken`,
`env.refresh_token` and `env.expires_at`; `env` is the binding of the
identifier `env` when the module is loaded, `none` when there is no such
binding, in which case evaluating line 14 throws a `ReferenceError`. The file
itself declares no `env` (it declares `express`, `axios`, `cors`, `app`,
`PORT`, `tokens` and the functions). -/
def initialTokens (env : Option EnvObject) : Except JsError Tokens :=
  match env with
  | none => .error { message := "env is not defined", status := none, response := none }
  | some env =>
    .ok { access_token := env.accessToken
          refresh_token := env.refresh_token
          expires_at := env.expires_at }

/-- The credential set with all three fields absent, as assigned on lines
57-61. -/
def emptyTokens : Tokens :=
  { access_token := none, refresh_token := none, expires_at := none }

/-- The operations that write the credential set: the token exchange of
`/oauth-callback` and a call of `getAccessToken` (made by every
`hubspotRequest`). -/
inductive StoreOp
  | callback (exchange : CodeRequest → Except JsError TokenData) (now : Nat)
      (code : Option String)
  | accessToken (post : TokenRequest → Except JsError TokenData) (now : Nat)

/-- The credential set after one operation. -/
def StoreOp.apply (cfg : Config) (tokens : Tokens) : StoreOp → Tokens
  | .callback exchange now code => (getOauthCallback cfg exchange now code tokens).tokens
  | .accessToken post now => (getAccessToken cfg post now tokens).tokens

/-- The credential set after a sequence of operations, oldest first. -/
def runOps (cfg : Config) (tokens : Tokens) (ops : List StoreOp) : Tokens :=
  ops.foldl (StoreOp.apply cfg) tokens

/-! ## Sample inputs -/

/-- A client configuration. -/
def sampleConfig : Config :=
  { HUBSPOT_CLIENT_ID := some "client-id", HUBSPOT_CLIENT_SECRET := some "client-secret" }

/-- A store with a fresh access token (expiry at 5000 ms). -/
def freshTokens : Tokens :=
  { access_token := some "tok", refresh_token := some "ref", expires_at := some 5000 }

/-- A store whose access token is the empty string. -/
def emptyAccessTokens : Tokens :=
  { access_token := some "", refresh_token := none, expires_at := some 5000 }

/-- A store with an expired access token and a refresh token. -/
def staleTokens : Tokens :=
  { access_token := some "old", refresh_token := some "ref", expires_at := some 500 }

/-- A store with an expired access token whose refresh token is the empty
string. -/
def emptyRefreshTokens : Tokens :=
  { access_token := some "old", refresh_token := some "", expires_at := some 500 }

/-- A store with an expired access token and no refresh token. -/
def expiredNoRefreshTokens : Tokens :=
  { access_token := some "old", refresh_token := none, expires_at := some 500 }

/-- A token endpoint granting `new` for 1800 seconds, without refresh token. -/
def grantPost : TokenRequest → Except JsError TokenData :=
  fun _ => .ok { access_token := "new", refresh_token := none, expires_in := 1800 }

/-- A token endpoint granting `new` with a new refresh token `ref2`. -/
def rotatePost : TokenRequest → Except JsError TokenData :=
  fun _ => .ok { access_token := "new", refresh_token := some "ref2", expires_in := 1800 }

/-- A token endpoint granting `new` together with an empty refresh token. -/
def emptyRotatePost : TokenRequest → Except JsError TokenData :=
  fun _ => .ok { access_token := "new", refresh_token := some "", expires_in := 1800 }

/-- The failure of a token-endpoint call answered `400 invalid_grant`. -/
def invalidGrantError : JsError :=
  { message := "Request failed with status code 400"
    status := none
    response := some
      { status := 400
        data := some { error := some "invalid_grant", body := "refresh token is invalid" } } }

/-- A token endpoint answering every call with `400 invalid_grant`. -/
def invalidGrantPost : TokenRequest → Except JsError TokenData :=
  fun _ => .error invalidGrantError

/-- The failure of a call answered `503`. -/
def unavailableError : JsError :=
  { message := "Request failed with status code 503"
    status := none
    response := some
      { status := 503, data := some { error := some "unavailable", body := "try later" } } }

/-- A token endpoint answering every call with `503`. -/
def unavailablePost : TokenRequest → Except JsError TokenData :=
  fun _ => .error unavailableError

/-- The failure of a call answered `409` with a payload. -/
def conflictError : JsError :=
  { message := "Request failed with status code 409"
    status := none
    response := some
      { status := 409, data := some { error := none, body := "Contact already exists" } } }

/-- An upstream API answering every call with one empty page. -/
def emptySend : ApiRequest ReqBody → Except JsError ApiData :=
  fun _ => .ok { results := some [], text := "" }

/-- An upstream API answering every call with `409`. -/
def conflictSend : ApiRequest ReqBody → Except JsError ApiData :=
  fun _ => .error conflictError

/-- A store with a fresh access token and no refresh token. -/
def accessOnlyTokens : Tokens :=
  { access_token := some "tok", refresh_token := none, expires_at := some 5000 }

/-- A world at time 1000 whose token endpoint grants and whose API answers
every call with one empty page. -/
def quietUpstream : Upstream :=
  { now := fun _ => 1000, post := fun _ => grantPost, send := fun _ => emptySend }

/-- A world at time 1000 whose API answers every call with `409`. -/
def conflictUpstream : Upstream :=
  { now := fun _ => 1000, post := fun _ => grantPost, send := fun _ => conflictSend }

/-- A world at time 1000 whose token endpoint answers `400 invalid_grant`. -/
def revokedUpstream : Upstream :=
  { now := fun _ => 1000, post := fun _ => invalidGrantPost, send := fun _ => emptySend }

/-- A constant stream of `Math.random()` values. -/
def halfRandom : Nat → ℚ :=
  fun _ => 1 / 2

/-- A contact whose `project_role` is `contractor;home_owner`. -/
def contractorOwner : Contact :=
  { id := "101"
    properties :=
      { firstname := some "John", lastname := some "Doe", email := some "john.doe@example.com"
        phone := none, address := none, city := none, state := none, zip := none
        project_role := some "contractor;home_owner" } }

/-- A contact whose `project_role` is a single space. -/
def blankRoleContact : Contact :=
  { id := "102"
    properties :=
      { firstname := some "Jane", lastname := some "Smith", email := none
        phone := none, address := none, city := none, state := none, zip := none
        project_role := some " " } }

/-- The first element of `mockContacts`, as posted by populate-contacts. -/
def johnDoe : ContactProperties :=
  { firstname := some "John", lastname := some "Doe", email := some "john.doe@example.com"
    phone := some "(123) 456-7890", address := some "123 Main St", city := some "San Diego"
    state := some "CA", zip := some "92101", project_role := none }

/-- The posted contact `johnDoe` as listed upstream with id `101` and role
`contractor`. -/
def johnListed : Contact :=
  { id := "101", properties := { johnDoe with project_role := some "contractor" } }

/-- The posted contact `johnDoe` as listed upstream with id `102` and role
`contractor`. -/
def johnListedAgain : Contact :=
  { id := "102", properties := { johnDoe with project_role := some "contractor" } }

/-- The posted contact `johnDoe` as listed upstream with id `101` and role
`geo_tech`. -/
def johnListedGeoTech : Contact :=
  { id := "101", properties := { johnDoe with project_role := some "geo_tech" } }

/-- A token endpoint answering the code exchange with an access token and no
refresh token. -/
def grantExchange : CodeRequest → Except JsError TokenData :=
  fun _ => .ok { access_token := "new", refresh_token := none, expires_in := 1800 }

/-- A token endpoint answering the code exchange with an access token and a
refresh token. -/
def fullExchange : CodeRequest → Except JsError TokenData :=
  fun _ => .ok { access_token := "new", refresh_token := some "ref2", expires_in := 1800 }

/-- A world at time 1000 in which the property lookup and the contact list
succeed while the two contact creations of initialize are answered `409`. -/
def duplicateUpstream : Upstream :=
  { now := fun _ => 1000
    post := fun _ => grantPost
    send := fun k => if k = 1 ∨ k = 2 then conflictSend else emptySend }

/-- An upstream page holding `contractorOwner` and `blankRoleContact`. -/
def twoContactsSend : ApiRequest ReqBody → Except JsError ApiData :=
  fun _ => .ok { results := some [blankRoleContact, contractorOwner], text := "" }

/-- A world at time 1000 whose API lists `blankRoleContact` and
`contractorOwner`. -/
def twoContactsUpstream : Upstream :=
  { now := fun _ => 1000, post := fun _ => grantPost, send := fun _ => twoContactsSend }

/-! ## Auxiliary facts -/

theorem truthyStr_some (a : String) : truthyStr (some a) = true ↔ a ≠ "" := by
  simp [truthyStr]

/-- When the stored access token is not usable in the sense of the guard of
line 28, `getAccessToken` is its refresh path. -/
theorem getAccessToken_eq_refresh (cfg : Config)
    (post : TokenRequest → Except JsError TokenData) (now : Nat) (tokens : Tokens)
    (h : tokens.access_token = none ∨ tokens.expires_at = none ∨
      ∃ e, tokens.expires_at = some e ∧ e ≤ (now : Int)) :
    getAccessToken cfg post now tokens = refreshAccessToken cfg post now tokens := by
  unfold getAccessToken
  rcases h with h | h | ⟨e, he, hle⟩
  · simp [h]
  · rw [h]
    cases tokens.access_token <;> rfl
  · rw [he]
    cases tokens.access_token with
    | none => rfl
    | some a => simp [not_lt.mpr hle]

/-- The test of line 56 holds exactly for a `400` response whose payload has
`error` equal to `invalid_grant`. -/
theorem isInvalidGrant_iff (error : JsError) :
    isInvalidGrant error = true ↔
      ∃ r d, error.response = some r ∧ r.status = 400 ∧ r.data = some d ∧
        d.error = some "invalid_grant" := by
  unfold isInvalidGrant
  cases hr : error.response with
  | none => simp
  | some r =>
    cases hd : r.data with
    | none => simp [hd]
    | some d => simp [hd]

/-! ## Token refresher -/

/-- C1 (as stated, refuted): the store `emptyAccessTokens` has an access token
present (the empty string) and an expiry present and later than `now = 1000`,
yet `getAccessToken` does not return the stored token: it throws
`AUTH_REQUIRED`. -/
theorem getAccessToken_empty_access_token_not_returned :
    emptyAccessTokens.access_token = some "" ∧
    emptyAccessTokens.expires_at = some 5000 ∧
    ((1000 : Nat) : Int) < 5000 ∧
    (getAccessToken sampleConfig grantPost 1000 emptyAccessTokens).result
      = .error authRequiredError ∧
    (getAccessToken sampleConfig grantPost 1000 emptyAccessTokens).result ≠ .ok "" := by
  refine ⟨rfl, rfl, by decide, rfl, ?_⟩
  rw [show (getAccessToken sampleConfig grantPost 1000 emptyAccessTokens).result
    = .error authRequiredError from rfl]
  simp

/-- C1 (amended): when the stored access token is present and not the empty
string, the expiry is present and `now` is before it, `getAccessToken` returns
exactly the stored token, calls the token endpoint zero times and leaves the
store unchanged. -/
theorem getAccessToken_cached (cfg : Config)
    (post : TokenRequest → Except JsError TokenData) (now : Nat) (tokens : Tokens)
    (a : String) (e : Int)
    (ha : tokens.access_token = some a) (hne : a ≠ "")
    (he : tokens.expires_at = some e) (hlt : (now : Int) < e) :
    (getAccessToken cfg post now tokens).result = .ok a ∧
    (getAccessToken cfg post now tokens).tokenCalls = [] ∧
    (getAccessToken cfg post now tokens).tokens = tokens := by
  have h0 : e ≠ 0 := by omega
  simp [getAccessToken, ha, he, truthyStr, truthyNum, hne, h0, hlt]

/-- Witness of `getAccessToken_cached` on `freshTokens` at `now = 1000`. -/
theorem getAccessToken_cached_witness :
    (getAccessToken sampleConfig invalidGrantPost 1000 freshTokens).result = .ok "tok" ∧
    (getAccessToken sampleConfig invalidGrantPost 1000 freshTokens).tokenCalls = [] ∧
    (getAccessToken sampleConfig invalidGrantPost 1000 freshTokens).tokens = freshTokens :=
  getAccessToken_cached sampleConfig invalidGrantPost 1000 freshTokens "tok" 5000
    rfl (by decide) rfl (by decide)

/-- C2 (as stated, refuted), two inputs. On `staleTokens` the endpoint answers
with a refresh token that is the empty string: the store keeps the previous
refresh token `ref` instead of the one carried by the response. On
`emptyRefreshTokens` a refresh token is present (the empty string) and the
access token has expired, yet no token-endpoint call is made and the result is
`AUTH_REQUIRED`. -/
theorem getAccessToken_refresh_not_as_stated :
    ((getAccessToken sampleConfig emptyRotatePost 1000 staleTokens).tokens.refresh_token
        = some "ref" ∧
      (getAccessToken sampleConfig emptyRotatePost 1000 staleTokens).tokens.refresh_token
        ≠ some "") ∧
    (emptyRefreshTokens.refresh_token = some "" ∧
      (getAccessToken sampleConfig grantPost 1000 emptyRefreshTokens).tokenCalls = [] ∧
      (getAccessToken sampleConfig grantPost 1000 emptyRefreshTokens).result
        = .error authRequiredError) := by
  refine ⟨⟨rfl, ?_⟩, rfl, rfl, rfl⟩
  rw [show (getAccessToken sampleConfig emptyRotatePost 1000 staleTokens).tokens.refresh_token
    = some "ref" from rfl]
  decide

/-- C2 (amended): with a stored refresh token that is present and not the empty
string and no usable access token, when the token endpoint succeeds with
access token `a`, lifetime `L` and optional refresh token, `getAccessToken`
makes exactly one token-endpoint call (the refresh request), returns `a`, and
leaves the store with `access_token = a`, `expires_at = now + L * 1000` and
`refresh_token` equal to the one of the response when that is present and
non-empty, and to the previously stored one otherwise. -/
theorem getAccessToken_refresh_success (cfg : Config)
    (post : TokenRequest → Except JsError TokenData) (now : Nat) (tokens : Tokens)
    (rt : String) (data : TokenData)
    (hrt : tokens.refresh_token = some rt) (hne : rt ≠ "")
    (hstale : tokens.access_token = none ∨ tokens.expires_at = none ∨
      ∃ e, tokens.expires_at = some e ∧ e ≤ (now : Int))
    (hpost : post (refreshRequest cfg tokens) = .ok data) :
    (getAccessToken cfg post now tokens).result = .ok data.access_token ∧
    (getAccessToken cfg post now tokens).tokenCalls = [refreshRequest cfg tokens] ∧
    (getAccessToken cfg post now tokens).tokens.access_token = some data.access_token ∧
    (getAccessToken cfg post now tokens).tokens.expires_at
      = some ((now : Int) + data.expires_in * 1000) ∧
    (∀ r, data.refresh_token = some r → r ≠ "" →
      (getAccessToken cfg post now tokens).tokens.refresh_token = some r) ∧
    (data.refresh_token = none ∨ data.refresh_token = some "" →
      (getAccessToken cfg post now tokens).tokens.refresh_token = some rt) := by
  rw [getAccessToken_eq_refresh cfg post now tokens hstale]
  have ht : truthyStr tokens.refresh_token = true := by
    rw [hrt]; exact (truthyStr_some rt).mpr hne
  simp only [refreshAccessToken, ht, hpost]
  refine ⟨rfl, rfl, rfl, rfl, ?_, ?_⟩
  · intro r hr hr0
    simp [orStr, hr, truthyStr, hr0]
  · rintro (h | h) <;> simp [orStr, h, truthyStr, hrt]

/-- Witness of `getAccessToken_refresh_success` on `staleTokens` with an
endpoint that rotates the refresh token. -/
theorem getAccessToken_refresh_success_witness :
    (getAccessToken sampleConfig rotatePost 1000 staleTokens).result = .ok "new" ∧
    (getAccessToken sampleConfig rotatePost 1000 staleTokens).tokenCalls
      = [refreshRequest sampleConfig staleTokens] ∧
    (getAccessToken sampleConfig rotatePost 1000 staleTokens).tokens.access_token
      = some "new" ∧
    (getAccessToken sampleConfig rotatePost 1000 staleTokens).tokens.expires_at
      = some 1801000 ∧
    (getAccessToken sampleConfig rotatePost 1000 staleTokens).tokens.refresh_token
      = some "ref2" :=
  have h := getAccessToken_refresh_success sampleConfig rotatePost 1000 staleTokens "ref"
    { access_token := "new", refresh_token := some "ref2", expires_in := 1800 }
    rfl (by decide) (Or.inr (Or.inr ⟨500, rfl, by decide⟩)) rfl
  ⟨h.1, h.2.1, h.2.2.1, h.2.2.2.1, h.2.2.2.2.1 "ref2" rfl (by decide)⟩

/-- C3: with no refresh token and no usable access token (access token absent,
or expiry absent, or `now` not before the expiry), `getAccessToken` fails with
the `AUTH_REQUIRED` error, makes zero token-endpoint calls and leaves the store
unchanged. -/
theorem getAccessToken_no_refresh_token (cfg : Config)
    (post : TokenRequest → Except JsError TokenData) (now : Nat) (tokens : Tokens)
    (hrt : tokens.refresh_token = none)
    (hstale : tokens.access_token = none ∨ tokens.expires_at = none ∨
      ∃ e, tokens.expires_at = some e ∧ e ≤ (now : Int)) :
    (getAccessToken cfg post now tokens).result = .error authRequiredError ∧
    (getAccessToken cfg post now tokens).tokenCalls = [] ∧
    (getAccessToken cfg post now tokens).tokens = tokens := by
  rw [getAccessToken_eq_refresh cfg post now tokens hstale]
  simp [refreshAccessToken, hrt, truthyStr]

/-- Witness of `getAccessToken_no_refresh_token` on `expiredNoRefreshTokens`. -/
theorem getAccessToken_no_refresh_token_witness :
    (getAccessToken sampleConfig grantPost 1000 expiredNoRefreshTokens).result
      = .error authRequiredError ∧
    (getAccessToken sampleConfig grantPost 1000 expiredNoRefreshTokens).tokenCalls = [] ∧
    (getAccessToken sampleConfig grantPost 1000 expiredNoRefreshTokens).tokens
      = expiredNoRefreshTokens :=
  getAccessToken_no_refresh_token sampleConfig grantPost 1000 expiredNoRefreshTokens rfl
    (Or.inr (Or.inr ⟨500, rfl, by decide⟩))

/-- A token-endpoint call logged by the refresh path is the refresh request,
and it is only made with a truthy stored refresh token. -/
theorem refreshAccessToken_call (cfg : Config)
    (post : TokenRequest → Except JsError TokenData) (now : Nat) (tokens : Tokens)
    (req : TokenRequest) (h : req ∈ (refreshAccessToken cfg post now tokens).tokenCalls) :
    req = refreshRequest cfg tokens ∧ truthyStr tokens.refresh_token = true := by
  unfold refreshAccessToken at h
  cases ht : truthyStr tokens.refresh_token with
  | false => simp [ht] at h
  | true =>
    refine ⟨?_, rfl⟩
    simp only [ht] at h
    cases hp : post (refreshRequest cfg tokens) with
    | ok data => simpa [hp] using h
    | error e =>
      cases hg : isInvalidGrant e <;> simpa [hp, hg] using h

/-- C4: for a store with a refresh token present and no usable access token,
when the token-endpoint call made by `getAccessToken` fails with a `400`
response whose `error` field is `invalid_grant`, `getAccessToken` fails with
`AUTH_REQUIRED` and leaves the store with access token, refresh token and
expiry all absent. -/
theorem getAccessToken_invalid_grant (cfg : Config)
    (post : TokenRequest → Except JsError TokenData) (now : Nat) (tokens : Tokens)
    (rt : String) (error : JsError) (r : ErrorResponse) (d : ErrorData)
    (_hrt : tokens.refresh_token = some rt)
    (hstale : tokens.access_token = none ∨ tokens.expires_at = none ∨
      ∃ e, tokens.expires_at = some e ∧ e ≤ (now : Int))
    (hcall : ∃ req, req ∈ (getAccessToken cfg post now tokens).tokenCalls ∧
      post req = .error error)
    (hresp : error.response = some r) (hstatus : r.status = 400)
    (hdata : r.data = some d) (herr : d.error = some "invalid_grant") :
    (getAccessToken cfg post now tokens).result = .error authRequiredError ∧
    (getAccessToken cfg post now tokens).tokens
      = { access_token := none, refresh_token := none, expires_at := none } := by
  rw [getAccessToken_eq_refresh cfg post now tokens hstale] at hcall ⊢
  obtain ⟨req, hmem, hpost⟩ := hcall
  obtain ⟨hreq, ht⟩ := refreshAccessToken_call cfg post now tokens req hmem
  rw [hreq] at hpost
  have hig : isInvalidGrant error = true :=
    (isInvalidGrant_iff error).mpr ⟨r, d, hresp, hstatus, hdata, herr⟩
  simp [refreshAccessToken, ht, hpost, hig]

/-- Witness of `getAccessToken_invalid_grant` on `staleTokens`. -/
theorem getAccessToken_invalid_grant_witness :
    (getAccessToken sampleConfig invalidGrantPost 1000 staleTokens).result
      = .error authRequiredError ∧
    (getAccessToken sampleConfig invalidGrantPost 1000 staleTokens).tokens
      = { access_token := none, refresh_token := none, expires_at := none } :=
  getAccessToken_invalid_grant sampleConfig invalidGrantPost 1000 staleTokens "ref"
    invalidGrantError
    { status := 400
      data := some { error := some "invalid_grant", body := "refresh token is invalid" } }
    { error := some "invalid_grant", body := "refresh token is invalid" }
    rfl (Or.inr (Or.inr ⟨500, rfl, by decide⟩))
    ⟨refreshRequest sampleConfig staleTokens, List.Mem.head _, rfl⟩ rfl rfl rfl rfl

/-- C5: for a store with a refresh token present and no usable access token,
when the token-endpoint call made by `getAccessToken` fails with an error `e`
that is not the invalid-grant condition, `getAccessToken` fails with that same
`e`, the token endpoint has been called exactly once, and the store is left as
it was. -/
theorem getAccessToken_other_failure (cfg : Config)
    (post : TokenRequest → Except JsError TokenData) (now : Nat) (tokens : Tokens)
    (rt : String) (error : JsError)
    (_hrt : tokens.refresh_token = some rt)
    (hstale : tokens.access_token = none ∨ tokens.expires_at = none ∨
      ∃ e, tokens.expires_at = some e ∧ e ≤ (now : Int))
    (hcall : ∃ req, req ∈ (getAccessToken cfg post now tokens).tokenCalls ∧
      post req = .error error)
    (hother : ¬ ∃ r d, error.response = some r ∧ r.status = 400 ∧ r.data = some d ∧
      d.error = some "invalid_grant") :
    (getAccessToken cfg post now tokens).result = .error error ∧
    (getAccessToken cfg post now tokens).tokenCalls = [refreshRequest cfg tokens] ∧
    (getAccessToken cfg post now tokens).tokenCalls.length = 1 ∧
    (getAccessToken cfg post now tokens).tokens = tokens := by
  rw [getAccessToken_eq_refresh cfg post now tokens hstale] at hcall ⊢
  obtain ⟨req, hmem, hpost⟩ := hcall
  obtain ⟨hreq, ht⟩ := refreshAccessToken_call cfg post now tokens req hmem
  rw [hreq] at hpost
  have hig : isInvalidGrant error = false := by
    cases h : isInvalidGrant error with
    | false => rfl
    | true => exact absurd ((isInvalidGrant_iff error).mp h) hother
  simp [refreshAccessToken, ht, hpost, hig]

/-- Witness of `getAccessToken_other_failure` on `staleTokens` with a `503`
answer. -/
theorem getAccessToken_other_failure_witness :
    (getAccessToken sampleConfig unavailablePost 1000 staleTokens).result
      = .error unavailableError ∧
    (getAccessToken sampleConfig unavailablePost 1000 staleTokens).tokenCalls
      = [refreshRequest sampleConfig staleTokens] ∧
    (getAccessToken sampleConfig unavailablePost 1000 staleTokens).tokenCalls.length = 1 ∧
    (getAccessToken sampleConfig unavailablePost 1000 staleTokens).tokens = staleTokens :=
  getAccessToken_other_failure sampleConfig unavailablePost 1000 staleTokens "ref"
    unavailableError rfl (Or.inr (Or.inr ⟨500, rfl, by decide⟩))
    ⟨refreshRequest sampleConfig staleTokens, List.Mem.head _, rfl⟩
    (by
      rintro ⟨r, d, hr, hs, -, -⟩
      cases hr
      exact absurd hs (by decide))

/-! ## Authenticated request wrapper -/

/-- C6: for every endpoint, method and body, (1) if `getAccessToken` fails with
an `AUTH_REQUIRED` error, `hubspotRequest` issues no upstream API call and fails
with a value whose status is 401, different from the original error; (2) if
`getAccessToken` fails with any other error `e`, `hubspotRequest` fails with
that same `e`; (3) if the upstream call fails with an error `e` other than
`AUTH_REQUIRED`, `hubspotRequest` fails with that same `e`. -/
theorem hubspotRequest_failure_mapping {β ρ : Type} (cfg : Config)
    (post : TokenRequest → Except JsError TokenData)
    (send : ApiRequest β → Except JsError ρ)
    (now : Nat) (tokens : Tokens) (endpoint method : String) (data : Option β) :
    (∀ e, (getAccessToken cfg post now tokens).result = .error e →
      e.message = "AUTH_REQUIRED" →
      (hubspotRequest cfg post send now tokens endpoint method data).apiCalls = [] ∧
      ∃ v, (hubspotRequest cfg post send now tokens endpoint method data).result = .error v ∧
        v.status = some 401 ∧ v ≠ e) ∧
    (∀ e, (getAccessToken cfg post now tokens).result = .error e →
      e.message ≠ "AUTH_REQUIRED" →
      (hubspotRequest cfg post send now tokens endpoint method data).result = .error e) ∧
    (∀ t e, (getAccessToken cfg post now tokens).result = .ok t →
      send
        { method := method
          url := "https://api.hubapi.com" ++ endpoint
          headers := [("Authorization", "Bearer " ++ t), ("Content-Type", "application/json")]
          data := data } = .error e →
      e.message ≠ "AUTH_REQUIRED" →
      (hubspotRequest cfg post send now tokens endpoint method data).result = .error e) := by
  refine ⟨?_, ?_, ?_⟩
  · intro e he hm
    refine ⟨?_, reauthorizeError, ?_, rfl, ?_⟩
    · simp [hubspotRequest, he]
    · simp [hubspotRequest, he, hubspotCatch, hm]
    · intro h
      rw [← h] at hm
      exact absurd hm (by decide)
  · intro e he hm
    simp [hubspotRequest, he, hubspotCatch, hm]
  · intro t e ht hs hm
    simp [hubspotRequest, ht, apiRequest, hs, hubspotCatch, hm]

/-- Witness of `hubspotRequest_failure_mapping`: a store without refresh token
(part 1), a refresh answered `503` (part 2) and an upstream call answered `409`
(part 3). -/
theorem hubspotRequest_failure_mapping_witness :
    ((hubspotRequest sampleConfig grantPost emptySend 1000 expiredNoRefreshTokens
        "/crm/v3/objects/contacts" "GET" none).apiCalls = [] ∧
      ∃ v, (hubspotRequest sampleConfig grantPost emptySend 1000 expiredNoRefreshTokens
        "/crm/v3/objects/contacts" "GET" none).result = .error v ∧
        v.status = some 401 ∧ v ≠ authRequiredError) ∧
    (hubspotRequest sampleConfig unavailablePost emptySend 1000 staleTokens
      "/crm/v3/objects/contacts" "GET" none).result = .error unavailableError ∧
    (hubspotRequest sampleConfig grantPost conflictSend 1000 freshTokens
      "/crm/v3/objects/contacts" "GET" none).result = .error conflictError :=
  ⟨(hubspotRequest_failure_mapping sampleConfig grantPost emptySend 1000
      expiredNoRefreshTokens "/crm/v3/objects/contacts" "GET" none).1
      authRequiredError rfl rfl,
   (hubspotRequest_failure_mapping sampleConfig unavailablePost emptySend 1000
      staleTokens "/crm/v3/objects/contacts" "GET" none).2.1
      unavailableError rfl (by decide),
   (hubspotRequest_failure_mapping sampleConfig grantPost conflictSend 1000
      freshTokens "/crm/v3/objects/contacts" "GET" none).2.2
      "tok" conflictError rfl rfl (by decide)⟩

/-- C7: when `getAccessToken` returns token `t` and the upstream call succeeds
with parsed body `b`, `hubspotRequest` issues exactly one upstream request, to
the URL `https://api.hubapi.com` followed by the endpoint, with the given
method and body and the headers `Authorization: Bearer t` and
`Content-Type: application/json`, and returns `b`. -/
theorem hubspotRequest_success {β ρ : Type} (cfg : Config)
    (post : TokenRequest → Except JsError TokenData)
    (send : ApiRequest β → Except JsError ρ)
    (now : Nat) (tokens : Tokens) (endpoint method : String) (data : Option β)
    (t : String) (b : ρ)
    (htoken : (getAccessToken cfg post now tokens).result = .ok t)
    (hsend : send
        { method := method
          url := "https://api.hubapi.com" ++ endpoint
          headers := [("Authorization", "Bearer " ++ t), ("Content-Type", "application/json")]
          data := data } = .ok b) :
    (hubspotRequest cfg post send now tokens endpoint method data).result = .ok b ∧
    (hubspotRequest cfg post send now tokens endpoint method data).apiCalls =
      [{ method := method
         url := "https://api.hubapi.com" ++ endpoint
         headers := [("Authorization", "Bearer " ++ t), ("Content-Type", "application/json")]
         data := data }] ∧
    (hubspotRequest cfg post send now tokens endpoint method data).apiCalls.length = 1 := by
  simp [hubspotRequest, htoken, apiRequest, hsend]

/-- Witness of `hubspotRequest_success`: a `GET` on a fresh store. -/
theorem hubspotRequest_success_witness :
    (hubspotRequest sampleConfig grantPost emptySend 1000 freshTokens
      "/crm/v3/objects/contacts?limit=20" "GET" none).result
      = .ok { results := some [], text := "" } ∧
    (hubspotRequest sampleConfig grantPost emptySend 1000 freshTokens
      "/crm/v3/objects/contacts?limit=20" "GET" none).apiCalls =
      [{ method := "GET"
         url := "https://api.hubapi.com" ++ "/crm/v3/objects/contacts?limit=20"
         headers := [("Authorization", "Bearer " ++ "tok"),
           ("Content-Type", "application/json")]
         data := none }] ∧
    (hubspotRequest sampleConfig grantPost emptySend 1000 freshTokens
      "/crm/v3/objects/contacts?limit=20" "GET" none).apiCalls.length = 1 :=
  hubspotRequest_success sampleConfig grantPost emptySend 1000 freshTokens
    "/crm/v3/objects/contacts?limit=20" "GET" none "tok"
    { results := some [], text := "" } rfl rfl

/-! ## Route handlers -/

/-- C8: on a store with no refresh token, whatever its access token and expiry,
the `GET /api/contacts-with-roles` handler responds with status 401 and a body
whose `authRequired` field is true, issues no token-endpoint call and no
upstream API call, and leaves the store unchanged. -/
theorem getContactsWithRoles_unauthenticated (cfg : Config) (up : Upstream)
    (random : Nat → ℚ) (tokens : Tokens) (hrt : tokens.refresh_token = none) :
    (getContactsWithRoles cfg up random tokens).response.status = 401 ∧
    (getContactsWithRoles cfg up random tokens).response.body.authRequiredField = some true ∧
    (getContactsWithRoles cfg up random tokens).run.tokenCalls = [] ∧
    (getContactsWithRoles cfg up random tokens).run.apiCalls = [] ∧
    (getContactsWithRoles cfg up random tokens).run.tokens = tokens := by
  simp [getContactsWithRoles, contactsWithRolesBody, isAuthenticated, Run.start, hrt,
    truthyStr, tryCatch, unauthenticatedResponse, ResBody.authRequiredField]

/-- Witness of `getContactsWithRoles_unauthenticated` on a store that still
holds a fresh access token. -/
theorem getContactsWithRoles_unauthenticated_witness :
    (getContactsWithRoles sampleConfig quietUpstream halfRandom accessOnlyTokens).response.status
      = 401 ∧
    (getContactsWithRoles sampleConfig quietUpstream halfRandom
      accessOnlyTokens).response.body.authRequiredField = some true ∧
    (getContactsWithRoles sampleConfig quietUpstream halfRandom accessOnlyTokens).run.tokenCalls
      = [] ∧
    (getContactsWithRoles sampleConfig quietUpstream halfRandom accessOnlyTokens).run.apiCalls
      = [] ∧
    (getContactsWithRoles sampleConfig quietUpstream halfRandom accessOnlyTokens).run.tokens
      = accessOnlyTokens :=
  getContactsWithRoles_unauthenticated sampleConfig quietUpstream halfRandom accessOnlyTokens rfl

/-- A `try` body that throws `error` is answered by the `catch` block. -/
theorem tryCatch_error (catchBlock : JsError → Response)
    (body : Except JsError Response × Run) (error : JsError) (h : body.1 = .error error) :
    (tryCatch catchBlock body).response = catchBlock error := by
  simp [tryCatch, h]

/-- The `catch` block of contacts-with-roles: 401 with `authRequired` for a
thrown value of status 401, otherwise 500 with the upstream payload, or the
message when there is no payload, in `details`. -/
theorem contactsCatch_spec (error : JsError) :
    (error.status = some 401 →
      (contactsCatch error).status = 401 ∧
      (contactsCatch error).body.authRequiredField = some true) ∧
    (error.status ≠ some 401 →
      (contactsCatch error).status = 500 ∧
      (∀ r d, error.response = some r → r.data = some d →
        (contactsCatch error).body.detailsField = some (.payload d)) ∧
      ((error.response = none ∨ ∃ r, error.response = some r ∧ r.data = none) →
        (contactsCatch error).body.detailsField = some (.message error.message))) := by
  refine ⟨fun h => ?_, fun h => ⟨?_, ?_, ?_⟩⟩
  · simp [contactsCatch, h, ResBody.authRequiredField]
  · simp [contactsCatch, h]
  · intro r d hr hd
    simp [contactsCatch, h, hr, hd, ResBody.detailsField]
  · rintro (hr | ⟨r, hr, hd⟩)
    · simp [contactsCatch, h, hr, ResBody.detailsField]
    · simp [contactsCatch, h, hr, hd, ResBody.detailsField]

/-- The `catch` block of the four setup handlers: 401 with `authRequired` for a
thrown value of status 401, otherwise 500 with only the message of the error. -/
theorem setupCatch_spec (error : JsError) :
    (error.status = some 401 →
      (setupCatch error).status = 401 ∧
      (setupCatch error).body.authRequiredField = some true) ∧
    (error.status ≠ some 401 →
      (setupCatch error).status = 500 ∧
      (setupCatch error).body = .failed error.message) := by
  refine ⟨fun h => ?_, fun h => ?_⟩
  · simp [setupCatch, h, ResBody.authRequiredField]
  · simp [setupCatch, h]

/-- C9 (as stated, refuted): on the authenticated store `freshTokens`, the
upstream API answers the first call of populate-contacts with `409` and the
payload `Contact already exists`; the failure reaches the handler, which
responds 500 with a body holding only the message of the error, not the
upstream payload. -/
theorem postPopulateContacts_error_payload_not_echoed :
    isAuthenticated freshTokens = true ∧
    (populateContactsBody sampleConfig conflictUpstream (Run.start freshTokens)).1
      = .error conflictError ∧
    conflictError.response
      = some { status := 409
               data := some { error := none, body := "Contact already exists" } } ∧
    (postPopulateContacts sampleConfig conflictUpstream freshTokens).response
      = { status := 500, body := .failed "Request failed with status code 409" } ∧
    (postPopulateContacts sampleConfig conflictUpstream freshTokens).response.body.detailsField
      = none :=
  ⟨rfl, rfl, rfl, rfl, rfl⟩

/-- C9 (amended): for each of the five route handlers running on an
authenticated store, a failure reaching the handler whose status is 401 (the
marker `hubspotRequest` throws for AuthenticationRequired) yields a 401
response with `authRequired` true, and every other failure yields a 500
response; the 500 body of contacts-with-roles carries the upstream error
payload in `details` (the error message when there is no payload), while the
500 body of populate-contacts, create-project-role-property, assign-roles and
initialize carries only the message of the error. -/
theorem handlers_failure_response (cfg : Config) (up : Upstream) (random : Nat → ℚ)
    (tokens : Tokens) (error : JsError) (_hauth : isAuthenticated tokens = true) :
    ((contactsWithRolesBody cfg up random (Run.start tokens)).1 = .error error →
      (error.status = some 401 →
        (getContactsWithRoles cfg up random tokens).response.status = 401 ∧
        (getContactsWithRoles cfg up random tokens).response.body.authRequiredField = some true) ∧
      (error.status ≠ some 401 →
        (getContactsWithRoles cfg up random tokens).response.status = 500 ∧
        (∀ r d, error.response = some r → r.data = some d →
          (getContactsWithRoles cfg up random tokens).response.body.detailsField = some (.payload d)) ∧
        ((error.response = none ∨ ∃ r, error.response = some r ∧ r.data = none) →
          (getContactsWithRoles cfg up random tokens).response.body.detailsField = some (.message error.message)))) ∧
    ((populateContactsBody cfg up (Run.start tokens)).1 = .error error →
      (error.status = some 401 →
        (postPopulateContacts cfg up tokens).response.status = 401 ∧
        (postPopulateContacts cfg up tokens).response.body.authRequiredField = some true) ∧
      (error.status ≠ some 401 →
        (postPopulateContacts cfg up tokens).response.status = 500 ∧
        (postPopulateContacts cfg up tokens).response.body = .failed error.message)) ∧
    ((createProjectRolePropertyBody cfg up (Run.start tokens)).1 = .error error →
      (error.status = some 401 →
        (postCreateProjectRoleProperty cfg up tokens).response.status = 401 ∧
        (postCreateProjectRoleProperty cfg up tokens).response.body.authRequiredField = some true) ∧
      (error.status ≠ some 401 →
        (postCreateProjectRoleProperty cfg up tokens).response.status = 500 ∧
        (postCreateProjectRoleProperty cfg up tokens).response.body = .failed error.message)) ∧
    ((assignRolesBody cfg up (Run.start tokens)).1 = .error error →
      (error.status = some 401 →
        (postAssignRoles cfg up tokens).response.status = 401 ∧
        (postAssignRoles cfg up tokens).response.body.authRequiredField = some true) ∧
      (error.status ≠ some 401 →
        (postAssignRoles cfg up tokens).response.status = 500 ∧
        (postAssignRoles cfg up tokens).response.body = .failed error.message)) ∧
    ((initializeBody cfg up (Run.start tokens)).1 = .error error →
      (error.status = some 401 →
        (postInitialize cfg up tokens).response.status = 401 ∧
        (postInitialize cfg up tokens).response.body.authRequiredField = some true) ∧
      (error.status ≠ some 401 →
        (postInitialize cfg up tokens).response.status = 500 ∧
        (postInitialize cfg up tokens).response.body = .failed error.message)) := by
  refine ⟨?_, ?_, ?_, ?_, ?_⟩
  · intro h
    rw [getContactsWithRoles, tryCatch_error _ _ error h]
    exact contactsCatch_spec error
  · intro h
    rw [postPopulateContacts, tryCatch_error _ _ error h]
    exact setupCatch_spec error
  · intro h
    rw [postCreateProjectRoleProperty, tryCatch_error _ _ error h]
    exact setupCatch_spec error
  · intro h
    rw [postAssignRoles, tryCatch_error _ _ error h]
    exact setupCatch_spec error
  · intro h
    rw [postInitialize, tryCatch_error _ _ error h]
    exact setupCatch_spec error

/-- Witness of `handlers_failure_response`: on `freshTokens` every handler has
its first upstream call answered `409` and responds 500; on `staleTokens` with
a revoked refresh token every handler responds 401 with `authRequired`. -/
theorem handlers_failure_response_witness :
    ((getContactsWithRoles sampleConfig conflictUpstream halfRandom freshTokens).response.status = 500 ∧
      (getContactsWithRoles sampleConfig conflictUpstream halfRandom freshTokens).response.body.detailsField
        = some (.payload { error := none, body := "Contact already exists" })) ∧
    ((postPopulateContacts sampleConfig conflictUpstream freshTokens).response.status = 500 ∧
      (postPopulateContacts sampleConfig conflictUpstream freshTokens).response.body
        = .failed "Request failed with status code 409") ∧
    ((postCreateProjectRoleProperty sampleConfig conflictUpstream freshTokens).response.status = 500 ∧
      (postCreateProjectRoleProperty sampleConfig conflictUpstream freshTokens).response.body
        = .failed "Request failed with status code 409") ∧
    ((postAssignRoles sampleConfig conflictUpstream freshTokens).response.status = 500 ∧
      (postAssignRoles sampleConfig conflictUpstream freshTokens).response.body
        = .failed "Request failed with status code 409") ∧
    ((postInitialize sampleConfig conflictUpstream freshTokens).response.status = 500 ∧
      (postInitialize sampleConfig conflictUpstream freshTokens).response.body
        = .failed "Request failed with status code 409") ∧
    ((getContactsWithRoles sampleConfig revokedUpstream halfRandom staleTokens).response.status = 401 ∧
      (getContactsWithRoles sampleConfig revokedUpstream halfRandom staleTokens).response.body.authRequiredField
        = some true) ∧
    ((postPopulateContacts sampleConfig revokedUpstream staleTokens).response.status = 401 ∧
      (postPopulateContacts sampleConfig revokedUpstream staleTokens).response.body.authRequiredField
        = some true) ∧
    ((postCreateProjectRoleProperty sampleConfig revokedUpstream staleTokens).response.status = 401 ∧
      (postCreateProjectRoleProperty sampleConfig revokedUpstream staleTokens).response.body.authRequiredField
        = some true) ∧
    ((postAssignRoles sampleConfig revokedUpstream staleTokens).response.status = 401 ∧
      (postAssignRoles sampleConfig revokedUpstream staleTokens).response.body.authRequiredField
        = some true) ∧
    ((postInitialize sampleConfig revokedUpstream staleTokens).response.status = 401 ∧
      (postInitialize sampleConfig revokedUpstream staleTokens).response.body.authRequiredField
        = some true) :=
  ⟨(And.intro
      (((handlers_failure_response sampleConfig conflictUpstream halfRandom freshTokens
        conflictError rfl).1 rfl).2 (by decide)).1
      ((((handlers_failure_response sampleConfig conflictUpstream halfRandom freshTokens
        conflictError rfl).1 rfl).2 (by decide)).2.1 _ _ rfl rfl)),
    (((handlers_failure_response sampleConfig conflictUpstream halfRandom freshTokens
      conflictError rfl).2.1 rfl).2 (by decide)),
    (((handlers_failure_response sampleConfig conflictUpstream halfRandom freshTokens
      conflictError rfl).2.2.1 rfl).2 (by decide)),
    (((handlers_failure_response sampleConfig conflictUpstream halfRandom freshTokens
      conflictError rfl).2.2.2.1 rfl).2 (by decide)),
    (((handlers_failure_response sampleConfig conflictUpstream halfRandom freshTokens
      conflictError rfl).2.2.2.2 rfl).2 (by decide)),
    (((handlers_failure_response sampleConfig revokedUpstream halfRandom staleTokens
      reauthorizeError rfl).1 rfl).1 rfl),
    (((handlers_failure_response sampleConfig revokedUpstream halfRandom staleTokens
      reauthorizeError rfl).2.1 rfl).1 rfl),
    (((handlers_failure_response sampleConfig revokedUpstream halfRandom staleTokens
      reauthorizeError rfl).2.2.1 rfl).1 rfl),
    (((handlers_failure_response sampleConfig revokedUpstream halfRandom staleTokens
      reauthorizeError rfl).2.2.2.1 rfl).1 rfl),
    (((handlers_failure_response sampleConfig revokedUpstream halfRandom staleTokens
      reauthorizeError rfl).2.2.2.2 rfl).1 rfl)⟩

/-! ## Role lists: `join(';')` followed by `split(';')` -/

/-- A piece without separator is split into itself alone. -/
theorem splitChars_of_not_mem (sep : Char) (x : List Char) (hx : sep ∉ x) :
    splitChars sep x = [x] := by
  induction x with
  | nil => rfl
  | cons c cs ih =>
    have hc : c ≠ sep := fun h => hx (by simp [h])
    have hcs : sep ∉ cs := fun h => hx (List.mem_cons_of_mem _ h)
    simp [splitChars, hc, ih hcs]

/-- A piece without separator, followed by a separator, is split off as the
first piece. -/
theorem splitChars_append_sep (sep : Char) (x ys : List Char) (hx : sep ∉ x) :
    splitChars sep (x ++ sep :: ys) = x :: splitChars sep ys := by
  induction x with
  | nil => simp [splitChars]
  | cons c cs ih =>
    have hc : c ≠ sep := fun h => hx (by simp [h])
    have hcs : sep ∉ cs := fun h => hx (List.mem_cons_of_mem _ h)
    simp [splitChars, hc, ih hcs]

/-- Splitting undoes joining, for a non-empty list of pieces without
separator. -/
theorem splitChars_joinChars (sep : Char) (l : List (List Char)) (hl : l ≠ [])
    (hsep : ∀ x ∈ l, sep ∉ x) : splitChars sep (joinChars sep l) = l := by
  induction l with
  | nil => exact absurd rfl hl
  | cons x rest ih =>
    cases rest with
    | nil => exact splitChars_of_not_mem sep x (hsep x (by simp))
    | cons y rest =>
      have hx : sep ∉ x := hsep x (by simp)
      have hrest : ∀ z ∈ y :: rest, sep ∉ z := fun z hz => hsep z (List.mem_cons_of_mem _ hz)
      rw [joinChars, splitChars_append_sep sep x _ hx, ih (by simp) hrest]

/-- The method `split` undoes the method `join`, for a non-empty list of
strings without separator. -/
theorem jsSplit_jsJoin (sep : Char) (xs : List String) (hxs : xs ≠ [])
    (hsep : ∀ x ∈ xs, sep ∉ x.data) : jsSplit (jsJoin xs sep) sep = xs := by
  unfold jsSplit jsJoin
  rw [splitChars_joinChars sep (xs.map String.data) (by simpa using hxs)
    (by
      intro x hx
      obtain ⟨y, hy, rfl⟩ := List.mem_map.mp hx
      exact hsep y hy)]
  rw [List.map_map]
  exact (List.map_congr_left (fun x _ => rfl)).trans (List.map_id xs)

/-- A string that is not blank is not empty. -/
theorem ne_empty_of_jsTrim_ne_empty (s : String) (h : jsTrim s ≠ "") : s ≠ "" := by
  intro hs
  rw [hs] at h
  exact h rfl

/-- The callbacks of contacts-with-roles on a joined role list: for every
non-empty list of role names in which no name contains `;` and whose `;`-join
is not blank, a contact whose `project_role` is the `;`-join of that list
passes the filter of lines 154-156 and is mapped by lines 159-181 to an entry
with `roles` equal to that list, in the same order. -/
theorem formatContact_roles_of_join (roles : List String) (contact : Contact)
    (random : Nat → ℚ) (k : Nat)
    (hroles : roles ≠ [])
    (hsep : ∀ r ∈ roles, ';' ∉ r.data)
    (hblank : jsTrim (jsJoin roles ';') ≠ "")
    (hrole : contact.properties.project_role = some (jsJoin roles ';')) :
    updateData roles = .update (jsJoin roles ';') ∧
    hasProjectRole contact = true ∧
    (∀ r1 r2, (formatContact r1 r2 contact).roles = roles) ∧
    (formatContacts random k ([contact].filter hasProjectRole)).map (fun c => c.roles)
      = [roles] := by
  have hne : jsJoin roles ';' ≠ "" := ne_empty_of_jsTrim_ne_empty _ hblank
  have hfilter : hasProjectRole contact = true := by
    simp [hasProjectRole, hrole, truthyStr, hne, hblank]
  have hfmt : ∀ r1 r2, (formatContact r1 r2 contact).roles = roles := by
    intro r1 r2
    simp [formatContact, hrole, truthyStr, hne, jsSplit_jsJoin ';' roles hroles hsep]
  refine ⟨rfl, hfilter, hfmt, ?_⟩
  simp [List.filter, hfilter, formatContacts, hfmt]

/-- An instance of `formatContact_roles_of_join`: the first role assignment,
`contractor;home_owner`, is read back as `contractor`, `home_owner`. -/
theorem formatContact_roles_of_join_witness :
    contractorOwner.properties.project_role = some "contractor;home_owner" ∧
    updateData ["contractor", "home_owner"] = .update (jsJoin ["contractor", "home_owner"] ';') ∧
    hasProjectRole contractorOwner = true ∧
    (∀ r1 r2, (formatContact r1 r2 contractorOwner).roles = ["contractor", "home_owner"]) ∧
    (formatContacts halfRandom 0 ([contractorOwner].filter hasProjectRole)).map
      (fun c => c.roles) = [["contractor", "home_owner"]] :=
  ⟨rfl, formatContact_roles_of_join ["contractor", "home_owner"] contractorOwner halfRandom 0
    (by decide) (by decide) (by decide) (by decide)⟩

/-! ## Formatted contact list -/

/-- The filter of lines 154-156 keeps exactly the contacts whose `project_role`
is present and not blank. -/
theorem hasProjectRole_iff (contact : Contact) :
    hasProjectRole contact = true ↔
      ∃ r, contact.properties.project_role = some r ∧ jsTrim r ≠ "" := by
  unfold hasProjectRole
  cases h : contact.properties.project_role with
  | none => simp [truthyStr]
  | some r =>
    have hr : jsTrim r ≠ "" → r ≠ "" := ne_empty_of_jsTrim_ne_empty r
    simp only [truthyStr, Option.getD_some, Bool.and_eq_true, bne_iff_ne, ne_eq,
      Option.some.injEq, exists_eq_left']
    exact ⟨fun h => h.2, fun h => ⟨hr h, h⟩⟩

/-- The map of lines 159-181 yields one entry per contact, in order, with the
id of the contact. -/
theorem formatContacts_ids (random : Nat → ℚ) (k : Nat) (contacts : List Contact) :
    (formatContacts random k contacts).map (fun f => f.id) = contacts.map (fun c => c.id) := by
  induction contacts generalizing k with
  | nil => rfl
  | cons c rest ih => simp [formatContacts, formatContact, ih]

/-- On an authenticated store, when the list call succeeds the handler answers
200 with the formatted, filtered list. -/
theorem getContactsWithRoles_ok (cfg : Config) (up : Upstream) (random : Nat → ℚ)
    (tokens : Tokens) (contactsResponse : ApiData)
    (hauth : isAuthenticated tokens = true)
    (hlist : (hubspotRequest cfg (up.post 0) (up.send 0) (up.now 0) tokens
      "/crm/v3/objects/contacts?limit=100&properties=firstname,lastname,email,phone,address,city,state,zip,project_role"
      "GET" none).result = .ok contactsResponse) :
    (getContactsWithRoles cfg up random tokens).response =
      { status := 200
        body := .formatted
          (formatContacts random 0 ((contactsResponse.results.getD []).filter hasProjectRole)) } := by
  simp only [getContactsWithRoles, contactsWithRolesBody, Run.start, hauth, request, hlist,
    tryCatch]
  rfl

/-- C11 (as stated, refuted): the upstream list holds `blankRoleContact`, whose
`project_role` is present and non-empty (a single space), followed by
`contractorOwner`; the formatted list has an entry for `contractorOwner` only. -/
theorem getContactsWithRoles_blank_role_excluded :
    blankRoleContact.properties.project_role = some " " ∧
    (" " : String) ≠ "" ∧
    twoContactsSend
        (apiRequest "tok"
          "/crm/v3/objects/contacts?limit=100&properties=firstname,lastname,email,phone,address,city,state,zip,project_role"
          "GET" none)
      = .ok { results := some [blankRoleContact, contractorOwner], text := "" } ∧
    (getContactsWithRoles sampleConfig twoContactsUpstream halfRandom freshTokens).response
      = { status := 200
          body := .formatted [formatContact (1 / 2) (1 / 2) contractorOwner] } ∧
    (formatContact (1 / 2) (1 / 2) contractorOwner).id = "101" :=
  ⟨rfl, by decide, rfl, rfl, rfl⟩

/-- C11 (amended): for every upstream contact list, the formatted list returned
by contacts-with-roles contains exactly one entry for each contact whose
`project_role` is present and not blank (non-empty after trimming), in upstream
order, and no entry for any contact whose `project_role` is blank or absent. -/
theorem getContactsWithRoles_entries (cfg : Config) (up : Upstream) (random : Nat → ℚ)
    (tokens : Tokens) (contactsResponse : ApiData)
    (hauth : isAuthenticated tokens = true)
    (hlist : (hubspotRequest cfg (up.post 0) (up.send 0) (up.now 0) tokens
      "/crm/v3/objects/contacts?limit=100&properties=firstname,lastname,email,phone,address,city,state,zip,project_role"
      "GET" none).result = .ok contactsResponse) :
    ∃ entries,
      (getContactsWithRoles cfg up random tokens).response
        = { status := 200, body := .formatted entries } ∧
      entries.map (fun f => f.id)
        = ((contactsResponse.results.getD []).filter hasProjectRole).map (fun c => c.id) ∧
      entries.length = ((contactsResponse.results.getD []).filter hasProjectRole).length ∧
      ∀ contact, hasProjectRole contact = true ↔
        ∃ r, contact.properties.project_role = some r ∧ jsTrim r ≠ "" := by
  refine ⟨_, getContactsWithRoles_ok cfg up random tokens contactsResponse hauth hlist,
    formatContacts_ids _ _ _, ?_, hasProjectRole_iff⟩
  have h := congrArg List.length
    (formatContacts_ids random 0 ((contactsResponse.results.getD []).filter hasProjectRole))
  simpa using h

/-- Witness of `getContactsWithRoles_entries`: the list of `blankRoleContact`
and `contractorOwner` yields the single id `101`. -/
theorem getContactsWithRoles_entries_witness :
    ∃ entries,
      (getContactsWithRoles sampleConfig twoContactsUpstream halfRandom freshTokens).response
        = { status := 200, body := .formatted entries } ∧
      entries.map (fun f => f.id) = ["101"] ∧
      entries.length = 1 :=
  have h := getContactsWithRoles_entries sampleConfig twoContactsUpstream halfRandom
    freshTokens { results := some [blankRoleContact, contractorOwner], text := "" } rfl rfl
  h.elim fun entries he => ⟨entries, he.1, he.2.1, he.2.2.1⟩

/-- The expression `a || ''` reads an absent value as the empty string and
any present value as itself. -/
theorem orEmpty_eq_getD (a : Option String) : orEmpty a = a.getD "" := by
  cases a with
  | none => rfl
  | some v =>
    by_cases hv : v = ""
    · subst hv; rfl
    · simp [orEmpty, orStr, truthyStr, hv]

/-- C12 (as stated, refuted): the posted contact `johnDoe` is listed upstream
with its eight posted properties unchanged as `johnListed` (id `101`, role
`contractor`), `johnListedAgain` (id `102`) and `johnListedGeoTech` (role
`geo_tech`); all three get an entry, and with the same random draws the
entries differ in `id` and in `roles`, so the coordinates are not the only
fields left open by the posted contact. -/
theorem formatContact_id_roles_not_determined :
    (johnListed.properties
        = { johnDoe with project_role := johnListed.properties.project_role } ∧
      johnListedAgain.properties
        = { johnDoe with project_role := johnListedAgain.properties.project_role } ∧
      johnListedGeoTech.properties
        = { johnDoe with project_role := johnListedGeoTech.properties.project_role }) ∧
    (hasProjectRole johnListed = true ∧ hasProjectRole johnListedAgain = true ∧
      hasProjectRole johnListedGeoTech = true) ∧
    (formatContact (1 / 2) (1 / 2) johnListed).id
      ≠ (formatContact (1 / 2) (1 / 2) johnListedAgain).id ∧
    (formatContact (1 / 2) (1 / 2) johnListed).roles
      ≠ (formatContact (1 / 2) (1 / 2) johnListedGeoTech).roles := by
  refine ⟨⟨rfl, rfl, rfl⟩, ⟨rfl, rfl, rfl⟩, ?_, ?_⟩
  · rw [show (formatContact (1 / 2) (1 / 2) johnListed).id = "101" from rfl,
      show (formatContact (1 / 2) (1 / 2) johnListedAgain).id = "102" from rfl]
    decide
  · rw [show (formatContact (1 / 2) (1 / 2) johnListed).roles = ["contractor"] from rfl,
      show (formatContact (1 / 2) (1 / 2) johnListedGeoTech).roles = ["geo_tech"] from rfl]
    decide

/-- C12 (amended): for every contact posted with properties firstname,
lastname, email, phone, address, city, state, zip and listed upstream with
these unchanged, the entry that contacts-with-roles produces for it has `name`
equal to firstname, a space and lastname, trimmed, `email` and `phone` equal
to the posted values, and `address.street`, `city`, `state`, `zip` equal to
the posted address, city, state, zip, every absent property being read back
as the empty string; its `id` is the id of the listed contact and its
coordinates come from the two random draws. The id, the roles and the
coordinates are the fields not determined by the posted contact. -/
theorem formatContact_round_trip (posted : ContactProperties) (contact : Contact)
    (r1 r2 : ℚ)
    (hlisted : contact.properties
      = { posted with project_role := contact.properties.project_role }) :
    (formatContact r1 r2 contact).name
      = jsTrim (posted.firstname.getD "" ++ " " ++ posted.lastname.getD "") ∧
    (formatContact r1 r2 contact).email = posted.email.getD "" ∧
    (formatContact r1 r2 contact).phone = posted.phone.getD "" ∧
    (formatContact r1 r2 contact).address.street = posted.address.getD "" ∧
    (formatContact r1 r2 contact).address.city = posted.city.getD "" ∧
    (formatContact r1 r2 contact).address.state = posted.state.getD "" ∧
    (formatContact r1 r2 contact).address.zip = posted.zip.getD "" ∧
    (formatContact r1 r2 contact).id = contact.id ∧
    (formatContact r1 r2 contact).coordinates
      = { lat := 37 + r1 * 8 - 4, lng := -100 + r2 * 30 - 15 } := by
  have h1 : contact.properties.firstname = posted.firstname := by rw [hlisted]
  have h2 : contact.properties.lastname = posted.lastname := by rw [hlisted]
  have h3 : contact.properties.email = posted.email := by rw [hlisted]
  have h4 : contact.properties.phone = posted.phone := by rw [hlisted]
  have h5 : contact.properties.address = posted.address := by rw [hlisted]
  have h6 : contact.properties.city = posted.city := by rw [hlisted]
  have h7 : contact.properties.state = posted.state := by rw [hlisted]
  have h8 : contact.properties.zip = posted.zip := by rw [hlisted]
  simp [formatContact, orEmpty_eq_getD, h1, h2, h3, h4, h5, h6, h7, h8]

/-- Witness of `formatContact_round_trip`: `johnDoe` read back from
`johnListed`. -/
theorem formatContact_round_trip_witness :
    (formatContact (1 / 2) (1 / 2) johnListed).name = jsTrim ("John" ++ " " ++ "Doe") ∧
    (formatContact (1 / 2) (1 / 2) johnListed).email = "john.doe@example.com" ∧
    (formatContact (1 / 2) (1 / 2) johnListed).phone = "(123) 456-7890" ∧
    (formatContact (1 / 2) (1 / 2) johnListed).address.street = "123 Main St" ∧
    (formatContact (1 / 2) (1 / 2) johnListed).address.city = "San Diego" ∧
    (formatContact (1 / 2) (1 / 2) johnListed).address.state = "CA" ∧
    (formatContact (1 / 2) (1 / 2) johnListed).address.zip = "92101" ∧
    (formatContact (1 / 2) (1 / 2) johnListed).id = "101" ∧
    (formatContact (1 / 2) (1 / 2) johnListed).coordinates
      = { lat := 37 + 1 / 2 * 8 - 4, lng := -100 + 1 / 2 * 30 - 15 } :=
  formatContact_round_trip johnDoe johnListed (1 / 2) (1 / 2) rfl

/-- The guard of line 28 holds: the stored token is returned and nothing else
happens. -/
theorem getAccessToken_cached_aux (cfg : Config)
    (post : TokenRequest → Except JsError TokenData) (now : Nat) (tokens : Tokens)
    (a : String) (e : Int)
    (ha : tokens.access_token = some a) (hne : a ≠ "")
    (he : tokens.expires_at = some e) (hlt : (now : Int) < e) :
    getAccessToken cfg post now tokens
      = { result := .ok a, tokens := tokens, tokenCalls := [] } := by
  have h0 : e ≠ 0 := by omega
  simp [getAccessToken, ha, he, truthyStr, truthyNum, hne, h0, hlt]

/-! ## Store without refresh token -/

/-- C13 (as stated, refuted): `accessOnlyTokens` has no refresh token, yet at
`now = 1000` `getAccessToken` does not fail: it returns the stored access
token, whose expiry 5000 is still ahead. -/
theorem getAccessToken_no_refresh_token_returns :
    accessOnlyTokens.refresh_token = none ∧
    (getAccessToken sampleConfig grantPost 1000 accessOnlyTokens).result = .ok "tok" ∧
    (getAccessToken sampleConfig grantPost 1000 accessOnlyTokens).result
      ≠ .error authRequiredError := by
  refine ⟨rfl, rfl, ?_⟩
  rw [show (getAccessToken sampleConfig grantPost 1000 accessOnlyTokens).result
    = .ok "tok" from rfl]
  simp

/-- C13 (amended): for every credential store with no refresh token,
`getAccessToken` performs no network call and leaves the store unchanged; it
returns the stored access token when that is non-empty and `now` is before the
stored expiry, and fails with `AUTH_REQUIRED` in every other case (access token
absent or empty, expiry absent, or `now` not before the expiry). -/
theorem getAccessToken_without_refresh_token (cfg : Config)
    (post : TokenRequest → Except JsError TokenData) (now : Nat) (tokens : Tokens)
    (hrt : tokens.refresh_token = none) :
    (getAccessToken cfg post now tokens).tokenCalls = [] ∧
    (getAccessToken cfg post now tokens).tokens = tokens ∧
    (∀ a e, tokens.access_token = some a → a ≠ "" → tokens.expires_at = some e →
      (now : Int) < e → (getAccessToken cfg post now tokens).result = .ok a) ∧
    ((tokens.access_token = none ∨ tokens.access_token = some "" ∨
        tokens.expires_at = none ∨ ∃ e, tokens.expires_at = some e ∧ e ≤ (now : Int)) →
      (getAccessToken cfg post now tokens).result = .error authRequiredError) := by
  have hrefresh : refreshAccessToken cfg post now tokens
      = { result := .error authRequiredError, tokens := tokens, tokenCalls := [] } := by
    simp [refreshAccessToken, hrt, truthyStr]
  refine ⟨?_, ?_, ?_, ?_⟩
  · unfold getAccessToken
    split
    · split <;> simp [hrefresh]
    · simp [hrefresh]
  · unfold getAccessToken
    split
    · split <;> simp [hrefresh]
    · simp [hrefresh]
  · intro a e ha hne he hlt
    rw [getAccessToken_cached_aux cfg post now tokens a e ha hne he hlt]
  · intro h
    unfold getAccessToken
    rcases h with h | h | h | ⟨e, he, hle⟩
    · simp [h, hrefresh]
    · rw [h]
      cases tokens.expires_at <;> simp [truthyStr, hrefresh]
    · rw [h]
      cases tokens.access_token <;> simp [hrefresh]
    · rw [he]
      cases tokens.access_token with
      | none => simp [hrefresh]
      | some a => simp [not_lt.mpr hle, hrefresh]

/-- Witness of `getAccessToken_without_refresh_token` on `accessOnlyTokens`
(token returned) and on `expiredNoRefreshTokens` (failure). -/
theorem getAccessToken_without_refresh_token_witness :
    (getAccessToken sampleConfig grantPost 1000 accessOnlyTokens).tokenCalls = [] ∧
    (getAccessToken sampleConfig grantPost 1000 accessOnlyTokens).result = .ok "tok" ∧
    (getAccessToken sampleConfig grantPost 1000 expiredNoRefreshTokens).tokenCalls = [] ∧
    (getAccessToken sampleConfig grantPost 1000 expiredNoRefreshTokens).result
      = .error authRequiredError :=
  ⟨(getAccessToken_without_refresh_token sampleConfig grantPost 1000 accessOnlyTokens rfl).1,
   (getAccessToken_without_refresh_token sampleConfig grantPost 1000 accessOnlyTokens
      rfl).2.2.1 "tok" 5000 rfl (by decide) rfl (by decide),
   (getAccessToken_without_refresh_token sampleConfig grantPost 1000 expiredNoRefreshTokens
      rfl).1,
   (getAccessToken_without_refresh_token sampleConfig grantPost 1000 expiredNoRefreshTokens
      rfl).2.2.2 (Or.inr (Or.inr (Or.inr ⟨500, rfl, by decide⟩)))⟩

/-! ## Store invariants -/

/-- The three ways `getAccessToken` can leave the store: untouched, refreshed
from a successful answer, or cleared. -/
theorem getAccessToken_tokens_cases (cfg : Config)
    (post : TokenRequest → Except JsError TokenData) (now : Nat) (tokens : Tokens) :
    (getAccessToken cfg post now tokens).tokens = tokens ∨
    (∃ data, post (refreshRequest cfg tokens) = .ok data ∧
      truthyStr tokens.refresh_token = true ∧
      (getAccessToken cfg post now tokens).tokens
        = { access_token := some data.access_token
            refresh_token := orStr data.refresh_token tokens.refresh_token
            expires_at := some ((now : Int) + data.expires_in * 1000) }) ∨
    (∃ error, post (refreshRequest cfg tokens) = .error error ∧
      isInvalidGrant error = true ∧
      refreshRequest cfg tokens ∈ (getAccessToken cfg post now tokens).tokenCalls ∧
      (getAccessToken cfg post now tokens).tokens = emptyTokens) := by
  have hrefresh : (refreshAccessToken cfg post now tokens).tokens = tokens ∨
      (∃ data, post (refreshRequest cfg tokens) = .ok data ∧
        truthyStr tokens.refresh_token = true ∧
        (refreshAccessToken cfg post now tokens).tokens
          = { access_token := some data.access_token
              refresh_token := orStr data.refresh_token tokens.refresh_token
              expires_at := some ((now : Int) + data.expires_in * 1000) }) ∨
      (∃ error, post (refreshRequest cfg tokens) = .error error ∧
        isInvalidGrant error = true ∧
        refreshRequest cfg tokens ∈ (refreshAccessToken cfg post now tokens).tokenCalls ∧
        (refreshAccessToken cfg post now tokens).tokens = emptyTokens) := by
    unfold refreshAccessToken
    cases ht : truthyStr tokens.refresh_token with
    | false => left; simp
    | true =>
      cases hp : post (refreshRequest cfg tokens) with
      | ok data => right; left; exact ⟨data, rfl, rfl, by simp [hp]⟩
      | error e =>
        cases hg : isInvalidGrant e with
        | false => left; simp [hp, hg]
        | true => right; right; exact ⟨e, rfl, hg, by simp [hp, hg], by simp [hp, hg, emptyTokens]⟩
  unfold getAccessToken
  split
  · split
    · left; rfl
    · exact hrefresh
  · exact hrefresh

/-- A token-endpoint call logged by `getAccessToken` is the refresh request,
made on the refresh path with a truthy stored refresh token. -/
theorem getAccessToken_call (cfg : Config)
    (post : TokenRequest → Except JsError TokenData) (now : Nat) (tokens : Tokens)
    (req : TokenRequest) (h : req ∈ (getAccessToken cfg post now tokens).tokenCalls) :
    getAccessToken cfg post now tokens = refreshAccessToken cfg post now tokens ∧
    req = refreshRequest cfg tokens ∧ truthyStr tokens.refresh_token = true := by
  have key : getAccessToken cfg post now tokens = refreshAccessToken cfg post now tokens := by
    unfold getAccessToken at h ⊢
    cases ha : tokens.access_token with
    | none => simp
    | some a =>
      cases he : tokens.expires_at with
      | none => simp
      | some e =>
        simp only [ha, he] at h ⊢
        split at h
        · simp at h
        · rename_i hc
          simp [hc]
  rw [key] at h
  exact ⟨key, refreshAccessToken_call cfg post now tokens req h⟩

/-- C14: the store invariant `if access_token is present then expires_at is
present` is preserved by the `/oauth-callback` token exchange and by every
call of `getAccessToken` (which covers a successful refresh and the
invalid-grant clear), so it holds in every store reached from the empty store
by any sequence of these operations. -/
theorem store_invariant_expires_at (cfg : Config) :
    (∀ exchange now code (tokens : Tokens),
      (tokens.access_token.isSome = true → tokens.expires_at.isSome = true) →
      ((getOauthCallback cfg exchange now code tokens).tokens.access_token.isSome = true →
        (getOauthCallback cfg exchange now code tokens).tokens.expires_at.isSome = true)) ∧
    (∀ post now (tokens : Tokens),
      (tokens.access_token.isSome = true → tokens.expires_at.isSome = true) →
      ((getAccessToken cfg post now tokens).tokens.access_token.isSome = true →
        (getAccessToken cfg post now tokens).tokens.expires_at.isSome = true)) ∧
    (∀ ops : List StoreOp,
      (runOps cfg emptyTokens ops).access_token.isSome = true →
        (runOps cfg emptyTokens ops).expires_at.isSome = true) := by
  have hcb : ∀ exchange now code (tokens : Tokens),
      (tokens.access_token.isSome = true → tokens.expires_at.isSome = true) →
      ((getOauthCallback cfg exchange now code tokens).tokens.access_token.isSome = true →
        (getOauthCallback cfg exchange now code tokens).tokens.expires_at.isSome = true) := by
    intro exchange now code tokens hinv
    cases h : exchange (codeRequest cfg code) with
    | ok data => simp [getOauthCallback, h]
    | error e => simpa [getOauthCallback, h] using hinv
  have hget : ∀ post now (tokens : Tokens),
      (tokens.access_token.isSome = true → tokens.expires_at.isSome = true) →
      ((getAccessToken cfg post now tokens).tokens.access_token.isSome = true →
        (getAccessToken cfg post now tokens).tokens.expires_at.isSome = true) := by
    intro post now tokens hinv
    rcases getAccessToken_tokens_cases cfg post now tokens with h | ⟨data, -, -, h⟩ |
      ⟨e, -, -, -, h⟩
    · rw [h]; exact hinv
    · rw [h]; intro _; rfl
    · rw [h]; intro hc; exact absurd hc (by decide)
  refine ⟨hcb, hget, ?_⟩
  have hrun : ∀ (ops : List StoreOp) (tokens : Tokens),
      (tokens.access_token.isSome = true → tokens.expires_at.isSome = true) →
      ((runOps cfg tokens ops).access_token.isSome = true →
        (runOps cfg tokens ops).expires_at.isSome = true) := by
    intro ops
    induction ops with
    | nil => intro tokens hinv; exact hinv
    | cons op rest ih =>
      intro tokens hinv
      have hstep : (StoreOp.apply cfg tokens op).access_token.isSome = true →
          (StoreOp.apply cfg tokens op).expires_at.isSome = true := by
        cases op with
        | callback exchange now code => exact hcb exchange now code tokens hinv
        | accessToken post now => exact hget post now tokens hinv
      exact ih (StoreOp.apply cfg tokens op) hstep
  intro ops
  exact hrun ops emptyTokens (fun hc => absurd hc (by decide))

/-- Witness of `store_invariant_expires_at`: after a callback exchange and a
later refresh, the store reached from the empty store has both an access token
and an expiry. -/
theorem store_invariant_expires_at_witness :
    (runOps sampleConfig emptyTokens
      [.callback fullExchange 1000 (some "code"), .accessToken rotatePost 2000000]).access_token
      = some "new" ∧
    (runOps sampleConfig emptyTokens
      [.callback fullExchange 1000 (some "code"),
        .accessToken rotatePost 2000000]).expires_at.isSome = true :=
  ⟨rfl, (store_invariant_expires_at sampleConfig).2.2
    [.callback fullExchange 1000 (some "code"), .accessToken rotatePost 2000000] rfl⟩

/-- C15 (as stated, refuted): `staleTokens` holds the refresh token `ref`; the
`/oauth-callback` exchange succeeds with a response that carries no refresh
token, and afterwards the store has no refresh token. -/
theorem getOauthCallback_drops_refresh_token :
    staleTokens.refresh_token = some "ref" ∧
    (getOauthCallback sampleConfig grantExchange 1000 (some "code") staleTokens).redirect
      = "http://localhost:3000?auth=success" ∧
    (getOauthCallback sampleConfig grantExchange 1000 (some "code")
      staleTokens).tokens.refresh_token = none :=
  ⟨rfl, rfl, rfl⟩

/-- C15 (amended): for every store in which a refresh token is present, after a
`getAccessToken` call that is not the invalid-grant clear (it returns, or fails
otherwise) a refresh token is still present; after a successful
`/oauth-callback` exchange the stored refresh token is the one carried by the
response, absent when the response carries none, and a failed exchange leaves
the store unchanged. -/
theorem refresh_token_retained (cfg : Config) (tokens : Tokens) (rt : String)
    (hrt : tokens.refresh_token = some rt) :
    (∀ post now,
      (¬ ∃ req error, req ∈ (getAccessToken cfg post now tokens).tokenCalls ∧
        post req = .error error ∧ isInvalidGrant error = true) →
      ∃ rt2, (getAccessToken cfg post now tokens).tokens.refresh_token = some rt2) ∧
    (∀ exchange now code data, exchange (codeRequest cfg code) = .ok data →
      (getOauthCallback cfg exchange now code tokens).tokens.refresh_token
        = data.refresh_token) ∧
    (∀ exchange now code error, exchange (codeRequest cfg code) = .error error →
      (getOauthCallback cfg exchange now code tokens).tokens = tokens) := by
  refine ⟨?_, ?_, ?_⟩
  · intro post now hnot
    rcases getAccessToken_tokens_cases cfg post now tokens with h | ⟨data, -, -, h⟩ |
      ⟨e, hp, hg, hmem, -⟩
    · exact ⟨rt, by rw [h]; exact hrt⟩
    · rw [h]
      cases hd : data.refresh_token with
      | none => exact ⟨rt, by simp [orStr, truthyStr, hrt]⟩
      | some r =>
        by_cases hr : r = ""
        · exact ⟨rt, by simp [orStr, truthyStr, hr, hrt]⟩
        · exact ⟨r, by simp [orStr, truthyStr, hr]⟩
    · exact absurd ⟨refreshRequest cfg tokens, e, hmem, hp, hg⟩ hnot
  · intro exchange now code data h
    simp [getOauthCallback, h]
  · intro exchange now code error h
    simp [getOauthCallback, h]

/-- Witness of `refresh_token_retained` on `staleTokens`: a refresh without new
refresh token keeps `ref`, and a callback exchange carrying `ref2` stores
`ref2`. -/
theorem refresh_token_retained_witness :
    (∃ rt2, (getAccessToken sampleConfig grantPost 1000 staleTokens).tokens.refresh_token
      = some rt2) ∧
    (getOauthCallback sampleConfig fullExchange 1000 (some "code")
      staleTokens).tokens.refresh_token = some "ref2" :=
  ⟨(refresh_token_retained sampleConfig staleTokens "ref" rfl).1 grantPost 1000
    (by
      rintro ⟨req, error, -, hp, -⟩
      exact Except.noConfusion hp),
   (refresh_token_retained sampleConfig staleTokens "ref" rfl).2.1 fullExchange 1000
    (some "code") { access_token := "new", refresh_token := some "ref2", expires_in := 1800 }
    rfl⟩

/-! ## From stale to fresh -/

/-- C16: after `getAccessToken` at time `t` succeeds by refreshing with a
non-empty access token `a` and lifetime `L > 0` seconds, every later
`getAccessToken` call on the store it left, at a time `t2` with
`t <= t2 < t + L * 1000`, returns `a`, makes no token-endpoint call and leaves
the store unchanged. -/
theorem getAccessToken_fresh_after_refresh (cfg : Config)
    (post post2 : TokenRequest → Except JsError TokenData) (t t2 : Nat) (tokens : Tokens)
    (data : TokenData) (a : String) (L : Int)
    (hcall : ∃ req, req ∈ (getAccessToken cfg post t tokens).tokenCalls ∧
      post req = .ok data)
    (ha : data.access_token = a) (hL : data.expires_in = L)
    (hne : a ≠ "") (_hpos : 0 < L)
    (_hle : t ≤ t2) (hlt : (t2 : Int) < (t : Int) + L * 1000) :
    (getAccessToken cfg post t tokens).result = .ok a ∧
    (getAccessToken cfg post2 t2 (getAccessToken cfg post t tokens).tokens).result = .ok a ∧
    (getAccessToken cfg post2 t2 (getAccessToken cfg post t tokens).tokens).tokenCalls = [] ∧
    (getAccessToken cfg post2 t2 (getAccessToken cfg post t tokens).tokens).tokens
      = (getAccessToken cfg post t tokens).tokens := by
  obtain ⟨req, hmem, hpost⟩ := hcall
  obtain ⟨hkey, hreq, ht⟩ := getAccessToken_call cfg post t tokens req hmem
  rw [hreq] at hpost
  have hfirst : getAccessToken cfg post t tokens
      = { result := .ok a
          tokens :=
            { access_token := some a
              refresh_token := orStr data.refresh_token tokens.refresh_token
              expires_at := some ((t : Int) + L * 1000) }
          tokenCalls := [refreshRequest cfg tokens] } := by
    rw [hkey]
    simp [refreshAccessToken, ht, hpost, ha, hL]
  rw [hfirst]
  have hsecond := getAccessToken_cached_aux cfg post2 t2
    { access_token := some a
      refresh_token := orStr data.refresh_token tokens.refresh_token
      expires_at := some ((t : Int) + L * 1000) } a ((t : Int) + L * 1000) rfl hne rfl hlt
  simp [hsecond]

/-- Witness of `getAccessToken_fresh_after_refresh`: `staleTokens` refreshed at
time 1000 for 1800 seconds, then read again at time 2000 against an endpoint
that would refuse. -/
theorem getAccessToken_fresh_after_refresh_witness :
    (getAccessToken sampleConfig grantPost 1000 staleTokens).result = .ok "new" ∧
    (getAccessToken sampleConfig invalidGrantPost 2000
      (getAccessToken sampleConfig grantPost 1000 staleTokens).tokens).result = .ok "new" ∧
    (getAccessToken sampleConfig invalidGrantPost 2000
      (getAccessToken sampleConfig grantPost 1000 staleTokens).tokens).tokenCalls = [] ∧
    (getAccessToken sampleConfig invalidGrantPost 2000
      (getAccessToken sampleConfig grantPost 1000 staleTokens).tokens).tokens
      = (getAccessToken sampleConfig grantPost 1000 staleTokens).tokens :=
  getAccessToken_fresh_after_refresh sampleConfig grantPost invalidGrantPost 1000 2000
    staleTokens { access_token := "new", refresh_token := none, expires_in := 1800 }
    "new" 1800
    ⟨refreshRequest sampleConfig staleTokens, List.Mem.head _, rfl⟩
    rfl rfl (by decide) (by decide) (by decide) (by decide)

/-! ## Process start -/

/-- C17 (the code at process start): the file declares no `env`, so the
initializer of `tokens` throws a `ReferenceError` and no store is created;
with an `env` in scope the store would start with the three values read from
it, and would be empty only if `env` had none of them. The behaviour the claim
describes is the one of the empty store: `isAuthenticated` is false and
`getAccessToken` fails with `AUTH_REQUIRED` without any call. -/
theorem initialTokens_at_process_start :
    initialTokens none
      = .error { message := "env is not defined", status := none, response := none } ∧
    (∀ env : EnvObject, initialTokens (some env) = .ok emptyTokens ↔
      env.accessToken = none ∧ env.refresh_token = none ∧ env.expires_at = none) ∧
    isAuthenticated emptyTokens = false ∧
    (∀ cfg post now,
      (getAccessToken cfg post now emptyTokens).result = .error authRequiredError ∧
      (getAccessToken cfg post now emptyTokens).tokenCalls = []) := by
  refine ⟨rfl, ?_, rfl, ?_⟩
  · intro env
    cases env with
    | mk a r e => simp [initialTokens, emptyTokens]
  · intro cfg post now
    exact ⟨rfl, rfl⟩

/-! ## Surfacing of upstream failures -/

/-- A successful `hubspotRequest` leaves the failure log as it was; one that
throws appends its endpoint, method and error. -/
theorem request_failures (cfg : Config) (up : Upstream) (s : Run)
    (endpoint method : String) (data : Option ReqBody) :
    (∀ r, (request cfg up s endpoint method data).1 = .ok r →
      (request cfg up s endpoint method data).2.failures = s.failures) ∧
    (∀ e, (request cfg up s endpoint method data).1 = .error e →
      (request cfg up s endpoint method data).2.failures
        = s.failures ++ [{ endpoint := endpoint, method := method, error := e }]) := by
  unfold request
  constructor
  · intro r h
    simp only at h
    simp only [h]
  · intro e h
    simp only at h
    simp only [h]

/-- The run after a `try`/`catch` is the run of the body. -/
theorem tryCatch_run (catchBlock : JsError → Response)
    (body : Except JsError Response × Run) : (tryCatch catchBlock body).run = body.2 := by
  unfold tryCatch
  cases body.1 <;> rfl

/-- Both `catch` blocks answer 401 or 500. -/
theorem catch_status (error : JsError) :
    ((contactsCatch error).status = 401 ∨ (contactsCatch error).status = 500) ∧
    ((setupCatch error).status = 401 ∨ (setupCatch error).status = 500) := by
  by_cases h : error.status = some 401
  · simp [contactsCatch, setupCatch, h]
  · simp [contactsCatch, setupCatch, h]

/-- A handler whose body answers 401 or, under the condition `P`, 200, and
whose `catch` block answers 401 or 500, responds 200, 401 or 500, and 200 only
under `P`. -/
theorem tryCatch_surfaces (catchBlock : JsError → Response)
    (body : Except JsError Response × Run) (P : Prop)
    (hcatch : ∀ e, (catchBlock e).status = 401 ∨ (catchBlock e).status = 500)
    (hbody : ∀ resp, body.1 = .ok resp → resp.status = 401 ∨ (resp.status = 200 ∧ P)) :
    ((tryCatch catchBlock body).response.status = 200 ∨
      (tryCatch catchBlock body).response.status = 401 ∨
      (tryCatch catchBlock body).response.status = 500) ∧
    ((tryCatch catchBlock body).response.status = 200 → P) := by
  unfold tryCatch
  cases hb : body.1 with
  | ok resp =>
    rcases hbody resp hb with h | ⟨h, hP⟩
    · simp [h]
    · simp [h, hP]
  | error e =>
    rcases hcatch e with h | h <;> simp [h]

/-- The strict loop of populate-contacts returns normally only when no call
threw. -/
theorem postContacts_failures (cfg : Config) (up : Upstream)
    (contacts : List ContactProperties) :
    ∀ (s : Run) (results : List ApiData) (out : List ApiData),
      (postContacts cfg up contacts s results).1 = .ok out →
      (postContacts cfg up contacts s results).2.failures = s.failures := by
  induction contacts with
  | nil => intro s results out _; rfl
  | cons c rest ih =>
    intro s results out h
    unfold postContacts at h ⊢
    have hreq := request_failures cfg up s "/crm/v3/objects/contacts" "POST" (some (.contact c))
    cases hr : request cfg up s "/crm/v3/objects/contacts" "POST" (some (.contact c)) with
    | mk res s1 =>
      rw [hr] at hreq
      cases res with
      | error e => simp [hr] at h
      | ok r =>
        simp only [hr] at h ⊢
        rw [ih s1 _ out h]
        exact hreq.1 r rfl

/-- The strict loop of assign-roles returns normally only when no call
threw. -/
theorem assignRoles_failures (cfg : Config) (up : Upstream) (contacts : List Contact) :
    ∀ (assignments : List (List String)) (s : Run) (results : List ApiData)
      (out : List ApiData),
      (assignRoles cfg up contacts assignments s results).1 = .ok out →
      (assignRoles cfg up contacts assignments s results).2.failures = s.failures := by
  induction contacts with
  | nil => intro assignments s results out _; simp [assignRoles]
  | cons c rest ih =>
    intro assignments s results out h
    cases assignments with
    | nil => simp [assignRoles]
    | cons roles more =>
      unfold assignRoles at h ⊢
      have hreq := request_failures cfg up s ("/crm/v3/objects/contacts/" ++ c.id) "PATCH"
        (some (updateData roles))
      cases hr : request cfg up s ("/crm/v3/objects/contacts/" ++ c.id) "PATCH"
          (some (updateData roles)) with
      | mk res s1 =>
        rw [hr] at hreq
        cases res with
        | error e => simp [hr] at h
        | ok r =>
          simp only [hr] at h ⊢
          rw [ih more s1 _ out h]
          exact hreq.1 r rfl

/-- The lenient loop of initialize only adds failures of
`POST /crm/v3/objects/contacts`. -/
theorem createContacts_failures (cfg : Config) (up : Upstream)
    (contacts : List ContactProperties) :
    ∀ (s : Run) (created : List ApiData) (f : Failure),
      f ∈ (createContacts cfg up contacts s created).2.failures →
      f ∈ s.failures ∨ (f.endpoint = "/crm/v3/objects/contacts" ∧ f.method = "POST") := by
  induction contacts with
  | nil => intro s created f h; exact Or.inl h
  | cons c rest ih =>
    intro s created f h
    unfold createContacts at h
    have hreq := request_failures cfg up s "/crm/v3/objects/contacts" "POST" (some (.contact c))
    cases hr : request cfg up s "/crm/v3/objects/contacts" "POST" (some (.contact c)) with
    | mk res s1 =>
      rw [hr] at hreq
      cases res with
      | error e =>
        simp only [hr] at h
        rcases ih s1 _ f h with h1 | h1
        · rw [hreq.2 e rfl] at h1
          rcases List.mem_append.mp h1 with h2 | h2
          · exact Or.inl h2
          · right
            rw [List.mem_singleton.mp h2]
            exact ⟨rfl, rfl⟩
        · exact Or.inr h1
      | ok r =>
        simp only [hr] at h
        rcases ih s1 _ f h with h1 | h1
        · rw [hreq.1 r rfl] at h1
          exact Or.inl h1
        · exact Or.inr h1

/-- The lenient loop of initialize only adds failures of `PATCH` calls. -/
theorem assignRolesLenient_failures (cfg : Config) (up : Upstream)
    (contacts : List Contact) :
    ∀ (assignments : List (List String)) (s : Run) (roleResults : List ApiData)
      (f : Failure),
      f ∈ (assignRolesLenient cfg up contacts assignments s roleResults).2.failures →
      f ∈ s.failures ∨ f.method = "PATCH" := by
  induction contacts with
  | nil =>
    intro assignments s roleResults f h
    simp only [assignRolesLenient] at h
    exact Or.inl h
  | cons c rest ih =>
    intro assignments s roleResults f h
    cases assignments with
    | nil =>
      simp only [assignRolesLenient] at h
      exact Or.inl h
    | cons roles more =>
      unfold assignRolesLenient at h
      have hreq := request_failures cfg up s ("/crm/v3/objects/contacts/" ++ c.id) "PATCH"
        (some (updateData roles))
      cases hr : request cfg up s ("/crm/v3/objects/contacts/" ++ c.id) "PATCH"
          (some (updateData roles)) with
      | mk res s1 =>
        rw [hr] at hreq
        cases res with
        | error e =>
          simp only [hr] at h
          rcases ih more s1 _ f h with h1 | h1
          · rw [hreq.2 e rfl] at h1
            rcases List.mem_append.mp h1 with h2 | h2
            · exact Or.inl h2
            · right
              rw [List.mem_singleton.mp h2]
          · exact Or.inr h1
        | ok r =>
          simp only [hr] at h
          rcases ih more s1 _ f h with h1 | h1
          · rw [hreq.1 r rfl] at h1
            exact Or.inl h1
          · exact Or.inr h1

/-- The property lookup returns normally either without failure or, with
`propertyExists` false, after one failure that is a 404 response. -/
theorem checkPropertyExists_failures (cfg : Config) (up : Upstream) (s : Run)
    (b : Bool) (h : (checkPropertyExists cfg up s).1 = .ok b) :
    (checkPropertyExists cfg up s).2.failures = s.failures ∨
    ∃ e r, e.response = some r ∧ r.status = 404 ∧
      (checkPropertyExists cfg up s).2.failures
        = s.failures ++ [{ endpoint := "/crm/v3/properties/contacts/project_role"
                           method := "GET", error := e }] := by
  unfold checkPropertyExists at h ⊢
  have hreq := request_failures cfg up s "/crm/v3/properties/contacts/project_role" "GET" none
  cases hr : request cfg up s "/crm/v3/properties/contacts/project_role" "GET" none with
  | mk res s1 =>
    rw [hr] at hreq
    cases res with
    | ok r =>
      left
      simp only [hr]
      exact hreq.1 r rfl
    | error e =>
      simp only [hr] at h ⊢
      by_cases h404 : e.response.map (fun r => r.status) ≠ some 404
      · simp [h404] at h
      · right
        simp only [h404, if_false]
        have h2 : e.response.map (fun r => r.status) = some 404 := not_not.mp h404
        obtain ⟨r, hr1, hr2⟩ := Option.map_eq_some'.mp h2
        exact ⟨e, r, hr1, hr2, hreq.2 e rfl⟩

/-- The body of contacts-with-roles answers 401, or 200 when no call threw. -/
theorem contactsWithRolesBody_ok (cfg : Config) (up : Upstream) (random : Nat → ℚ)
    (s : Run) (resp : Response)
    (h : (contactsWithRolesBody cfg up random s).1 = .ok resp) :
    resp.status = 401 ∨
    (resp.status = 200 ∧ (contactsWithRolesBody cfg up random s).2.failures = s.failures) := by
  unfold contactsWithRolesBody at h ⊢
  by_cases hauth : isAuthenticated s.tokens = true
  · have hreq := request_failures cfg up s
      "/crm/v3/objects/contacts?limit=100&properties=firstname,lastname,email,phone,address,city,state,zip,project_role"
      "GET" none
    cases hr : request cfg up s
        "/crm/v3/objects/contacts?limit=100&properties=firstname,lastname,email,phone,address,city,state,zip,project_role"
        "GET" none with
    | mk res s1 =>
      rw [hr] at hreq
      cases res with
      | error e => simp [hauth, hr] at h
      | ok r =>
        simp only [hauth, hr, Bool.not_true, Bool.false_eq_true, if_false] at h ⊢
        right
        refine ⟨?_, hreq.1 r rfl⟩
        rw [← Except.ok.inj h]
  · simp only [hauth, Bool.not_eq_true] at h
    left
    simp only [Bool.not_eq_true] at hauth
    simp only [hauth, Bool.not_false, if_true] at h
    rw [← Except.ok.inj h]
    rfl

/-- The body of populate-contacts answers 401, or 200 when no call threw. -/
theorem populateContactsBody_ok (cfg : Config) (up : Upstream) (s : Run) (resp : Response)
    (h : (populateContactsBody cfg up s).1 = .ok resp) :
    resp.status = 401 ∨
    (resp.status = 200 ∧ (populateContactsBody cfg up s).2.failures = s.failures) := by
  unfold populateContactsBody at h ⊢
  by_cases hauth : isAuthenticated s.tokens = true
  · have hloop := postContacts_failures cfg up populateMockContacts s []
    cases hr : postContacts cfg up populateMockContacts s [] with
    | mk res s1 =>
      rw [hr] at hloop
      cases res with
      | error e => simp [hauth, hr] at h
      | ok r =>
        simp only [hauth, hr, Bool.not_true, Bool.false_eq_true, if_false] at h ⊢
        right
        refine ⟨?_, hloop r rfl⟩
        rw [← Except.ok.inj h]
  · simp only [Bool.not_eq_true] at hauth
    simp only [hauth, Bool.not_false, if_true] at h
    left
    rw [← Except.ok.inj h]
    rfl

/-- The body of assign-roles answers 401, or 200 when no call threw. -/
theorem assignRolesBody_ok (cfg : Config) (up : Upstream) (s : Run) (resp : Response)
    (h : (assignRolesBody cfg up s).1 = .ok resp) :
    resp.status = 401 ∨
    (resp.status = 200 ∧ (assignRolesBody cfg up s).2.failures = s.failures) := by
  unfold assignRolesBody at h ⊢
  by_cases hauth : isAuthenticated s.tokens = true
  · have hreq := request_failures cfg up s "/crm/v3/objects/contacts?limit=20" "GET" none
    cases hr : request cfg up s "/crm/v3/objects/contacts?limit=20" "GET" none with
    | mk res s1 =>
      rw [hr] at hreq
      cases res with
      | error e => simp [hauth, hr] at h
      | ok r =>
        simp only [hauth, hr, Bool.not_true, Bool.false_eq_true, if_false] at h ⊢
        have hloop := assignRoles_failures cfg up (r.results.getD []) roleAssignments s1 []
        cases hl : assignRoles cfg up (r.results.getD []) roleAssignments s1 [] with
        | mk res2 s2 =>
          rw [hl] at hloop
          cases res2 with
          | error e => simp [hl] at h
          | ok out =>
            simp only [hl] at h ⊢
            right
            refine ⟨?_, (hloop out rfl).trans (hreq.1 r rfl)⟩
            rw [← Except.ok.inj h]
  · simp only [Bool.not_eq_true] at hauth
    simp only [hauth, Bool.not_false, if_true] at h
    left
    rw [← Except.ok.inj h]
    rfl

/-- The body of create-project-role-property answers 401, or 200 when the only
call that threw, if any, is the property lookup answered 404. -/
theorem createProjectRolePropertyBody_ok (cfg : Config) (up : Upstream) (s : Run)
    (resp : Response) (h : (createProjectRolePropertyBody cfg up s).1 = .ok resp) :
    resp.status = 401 ∨
    (resp.status = 200 ∧
      ∀ f, f ∈ (createProjectRolePropertyBody cfg up s).2.failures →
        f ∈ s.failures ∨
        (f.endpoint = "/crm/v3/properties/contacts/project_role" ∧ f.method = "GET" ∧
          ∃ r, f.error.response = some r ∧ r.status = 404)) := by
  unfold createProjectRolePropertyBody at h ⊢
  by_cases hauth : isAuthenticated s.tokens = true
  · cases hc : checkPropertyExists cfg up s with
    | mk res s1 =>
      cases res with
      | error e => simp [hauth, hc] at h
      | ok b =>
        have hlook := checkPropertyExists_failures cfg up s b (by rw [hc])
        rw [hc] at hlook
        have hs1 : ∀ f, f ∈ s1.failures → f ∈ s.failures ∨
            (f.endpoint = "/crm/v3/properties/contacts/project_role" ∧ f.method = "GET" ∧
          ∃ r, f.error.response = some r ∧ r.status = 404) := by
          intro f hf
          rcases hlook with hl | ⟨e, r, hr1, hr2, hl⟩
          · left
            rw [← hl]
            exact hf
          · simp only at hl
            rw [hl] at hf
            rcases List.mem_append.mp hf with h2 | h2
            · exact Or.inl h2
            · right
              rw [List.mem_singleton.mp h2]
              exact ⟨rfl, rfl, r, hr1, hr2⟩
        simp only [hauth, hc, Bool.not_true, Bool.false_eq_true, if_false] at h ⊢
        cases b with
        | true =>
          simp only [Bool.not_true, Bool.false_eq_true, if_false] at h ⊢
          right
          refine ⟨?_, hs1⟩
          rw [← Except.ok.inj h]
        | false =>
          simp only [Bool.not_false, if_true] at h ⊢
          have hreq := request_failures cfg up s1 "/crm/v3/properties/contacts" "POST"
            (some (.property propertyData))
          cases hr : request cfg up s1 "/crm/v3/properties/contacts" "POST"
              (some (.property propertyData)) with
          | mk res2 s2 =>
            rw [hr] at hreq
            cases res2 with
            | error e => simp [hr] at h
            | ok r =>
              simp only [hr] at h ⊢
              right
              refine ⟨?_, ?_⟩
              · rw [← Except.ok.inj h]
              · intro f hf
                rw [hreq.1 r rfl] at hf
                exact hs1 f hf
  · simp only [Bool.not_eq_true] at hauth
    simp only [hauth, Bool.not_false, if_true] at h
    left
    rw [← Except.ok.inj h]
    rfl

/-- The part of initialize after the property step (lines 514-597): it answers
200 only when the contact list call did not throw, and the calls that threw
are contact creations or role updates. -/
theorem initializeBody_tail (cfg : Config) (up : Upstream) (s2 : Run) (resp : Response)
    (s5 : Run)
    (h : (match request cfg up (createContacts cfg up initializeMockContacts s2 []).2
          "/crm/v3/objects/contacts?limit=20" "GET" none with
        | (.error error, s4) => ((.error error : Except JsError Response), s4)
        | (.ok contactsResponse, s4) =>
          (.ok { status := 200
                 body := .initialized
                   (createContacts cfg up initializeMockContacts s2 []).1.length
                   (assignRolesLenient cfg up (contactsResponse.results.getD [])
                     roleAssignments s4 []).1.length },
            (assignRolesLenient cfg up (contactsResponse.results.getD [])
              roleAssignments s4 []).2)) = (.ok resp, s5)) :
    resp.status = 200 ∧
    ∀ f, f ∈ s5.failures →
      f ∈ s2.failures ∨ (f.endpoint = "/crm/v3/objects/contacts" ∧ f.method = "POST") ∨
        f.method = "PATCH" := by
  have hreq := request_failures cfg up (createContacts cfg up initializeMockContacts s2 []).2
    "/crm/v3/objects/contacts?limit=20" "GET" none
  cases hr : request cfg up (createContacts cfg up initializeMockContacts s2 []).2
      "/crm/v3/objects/contacts?limit=20" "GET" none with
  | mk res s4 =>
    rw [hr] at hreq h
    cases res with
    | error e => simp at h
    | ok r =>
      simp only [Prod.mk.injEq, Except.ok.injEq] at h
      refine ⟨by rw [← h.1], ?_⟩
      intro f hf
      rw [← h.2] at hf
      rcases assignRolesLenient_failures cfg up _ _ s4 [] f hf with h1 | h1
      · rw [hreq.1 r rfl] at h1
        rcases createContacts_failures cfg up initializeMockContacts s2 [] f h1 with h2 | h2
        · exact Or.inl h2
        · exact Or.inr (Or.inl h2)
      · exact Or.inr (Or.inr h1)

/-- The body of initialize answers 401, or 200 when the calls that threw are
the property lookup answered 404, contact creations or role updates. -/
theorem initializeBody_ok (cfg : Config) (up : Upstream) (s : Run)
    (resp : Response) (h : (initializeBody cfg up s).1 = .ok resp) :
    resp.status = 401 ∨
    (resp.status = 200 ∧
      ∀ f, f ∈ (initializeBody cfg up s).2.failures →
        f ∈ s.failures ∨
        (f.endpoint = "/crm/v3/properties/contacts/project_role" ∧ f.method = "GET" ∧
          ∃ r, f.error.response = some r ∧ r.status = 404) ∨
        (f.endpoint = "/crm/v3/objects/contacts" ∧ f.method = "POST") ∨
        f.method = "PATCH") := by
  unfold initializeBody at h ⊢
  by_cases hauth : isAuthenticated s.tokens = true
  · cases hc : checkPropertyExists cfg up s with
    | mk res s1 =>
      cases res with
      | error e => simp [hauth, hc] at h
      | ok b =>
        have hlook := checkPropertyExists_failures cfg up s b (by rw [hc])
        rw [hc] at hlook
        have hs1 : ∀ f, f ∈ s1.failures → f ∈ s.failures ∨
            (f.endpoint = "/crm/v3/properties/contacts/project_role" ∧ f.method = "GET" ∧
              ∃ r, f.error.response = some r ∧ r.status = 404) := by
          intro f hf
          rcases hlook with hl | ⟨e, r, hr1, hr2, hl⟩
          · left
            rw [← hl]
            exact hf
          · simp only at hl
            rw [hl] at hf
            rcases List.mem_append.mp hf with h2 | h2
            · exact Or.inl h2
            · right
              rw [List.mem_singleton.mp h2]
              exact ⟨rfl, rfl, r, hr1, hr2⟩
        simp only [hauth, hc, Bool.not_true, Bool.false_eq_true, if_false] at h ⊢
        cases b with
        | true =>
          simp only [Bool.not_true, Bool.false_eq_true, if_false] at h ⊢
          obtain ⟨h200, hf⟩ := initializeBody_tail cfg up s1 resp _ (Prod.ext h rfl)
          right
          refine ⟨h200, ?_⟩
          intro f hmem
          rcases hf f hmem with h1 | h1
          · rcases hs1 f h1 with h2 | h2
            · exact Or.inl h2
            · exact Or.inr (Or.inl h2)
          · exact Or.inr (Or.inr h1)
        | false =>
          simp only [Bool.not_false, if_true] at h ⊢
          have hreq := request_failures cfg up s1 "/crm/v3/properties/contacts" "POST"
            (some (.property propertyData))
          cases hr : request cfg up s1 "/crm/v3/properties/contacts" "POST"
              (some (.property propertyData)) with
          | mk res2 s2 =>
            rw [hr] at hreq
            cases res2 with
            | error e => simp [hr] at h
            | ok r =>
              simp only [hr] at h ⊢
              obtain ⟨h200, hf⟩ := initializeBody_tail cfg up s2 resp _ (Prod.ext h rfl)
              right
              refine ⟨h200, ?_⟩
              intro f hmem
              rcases hf f hmem with h1 | h1
              · rw [hreq.1 r rfl] at h1
                rcases hs1 f h1 with h2 | h2
                · exact Or.inl h2
                · exact Or.inr (Or.inl h2)
              · exact Or.inr (Or.inr h1)
  · simp only [Bool.not_eq_true] at hauth
    simp only [hauth, Bool.not_false, if_true] at h
    left
    rw [← Except.ok.inj h]
    rfl

/-- C18 (as stated, refuted): on the authenticated store `freshTokens`, the
property lookup and the contact list call of initialize succeed while its two
contact-creation calls are answered `409`; the handler responds 200 with a
success body reporting zero contacts created, although two upstream calls
failed. -/
theorem postInitialize_swallows_failures :
    isAuthenticated freshTokens = true ∧
    (postInitialize sampleConfig duplicateUpstream freshTokens).run.failures
      = [{ endpoint := "/crm/v3/objects/contacts", method := "POST", error := conflictError },
         { endpoint := "/crm/v3/objects/contacts", method := "POST", error := conflictError }] ∧
    (postInitialize sampleConfig duplicateUpstream freshTokens).response
      = { status := 200, body := .initialized 0 0 } ∧
    (postInitialize sampleConfig duplicateUpstream freshTokens).response.body.successField
      = some true :=
  ⟨rfl, rfl, rfl, rfl⟩

/-! ## Roles of a listed contact -/

/-- The entry at position `i` of the formatted list is the contact at position
`i`, formatted with its two random draws. -/
theorem formatContacts_getElem_opt (random : Nat → ℚ) (contacts : List Contact) :
    ∀ (k i : Nat), (formatContacts random k contacts)[i]?
      = (contacts[i]?).map
          (fun c => formatContact (random (k + 2 * i)) (random (k + 2 * i + 1)) c) := by
  induction contacts with
  | nil => intro k i; simp [formatContacts]
  | cons c rest ih =>
    intro k i
    cases i with
    | zero => simp [formatContacts]
    | succ j =>
      have h1 : k + 2 + 2 * j = k + 2 * (j + 1) := by omega
      simp [formatContacts, ih (k + 2) j, h1]

/-- C10: for every non-empty list of role names in which no name contains `;`
and whose `;`-join is not blank, when the upstream list holds a contact whose
`project_role` is the `;`-join of that list (the value assign-roles writes in
its update body), the contacts-with-roles handler answers 200 with a formatted
list in which that contact has an entry, at its position among the contacts
kept, with the id of the contact and `roles` equal to that list, in the same
order. -/
theorem getContactsWithRoles_roles_of_join (cfg : Config) (up : Upstream)
    (random : Nat → ℚ) (tokens : Tokens) (contactsResponse : ApiData)
    (roles : List String) (written : String) (contact : Contact)
    (hauth : isAuthenticated tokens = true)
    (hlist : (hubspotRequest cfg (up.post 0) (up.send 0) (up.now 0) tokens
      "/crm/v3/objects/contacts?limit=100&properties=firstname,lastname,email,phone,address,city,state,zip,project_role"
      "GET" none).result = .ok contactsResponse)
    (hmem : contact ∈ contactsResponse.results.getD [])
    (hroles : roles ≠ [])
    (hsep : ∀ r ∈ roles, ';' ∉ r.data)
    (hwritten : updateData roles = .update written)
    (hblank : jsTrim written ≠ "")
    (hrole : contact.properties.project_role = some written) :
    ∃ entries : List FormattedContact,
      (getContactsWithRoles cfg up random tokens).response
        = { status := 200, body := .formatted entries } ∧
      (∃ i : Nat, ((contactsResponse.results.getD []).filter hasProjectRole)[i]? = some contact) ∧
      ∀ i : Nat, ((contactsResponse.results.getD []).filter hasProjectRole)[i]? = some contact →
        ∃ entry : FormattedContact, entries[i]? = some entry ∧ entry.id = contact.id ∧ entry.roles = roles := by
  have hw : written = jsJoin roles ';' := by
    have h := hwritten
    simp only [updateData, ReqBody.update.injEq] at h
    exact h.symm
  subst hw
  obtain ⟨-, hfilter, hfmt, -⟩ :=
    formatContact_roles_of_join roles contact random 0 hroles hsep hblank hrole
  refine ⟨_, getContactsWithRoles_ok cfg up random tokens contactsResponse hauth hlist, ?_, ?_⟩
  · exact List.getElem?_of_mem (List.mem_filter.mpr ⟨hmem, hfilter⟩)
  · intro i hi
    refine ⟨formatContact (random (0 + 2 * i)) (random (0 + 2 * i + 1)) contact, ?_, rfl,
      hfmt _ _⟩
    rw [formatContacts_getElem_opt, hi]
    rfl

/-- Witness of `getContactsWithRoles_roles_of_join`: the upstream lists
`blankRoleContact` and `contractorOwner`; the handler answers 200 and the
entry of `contractorOwner`, first among the contacts kept, has roles
`contractor`, `home_owner`. -/
theorem getContactsWithRoles_roles_of_join_witness :
    ∃ entries : List FormattedContact,
      (getContactsWithRoles sampleConfig twoContactsUpstream halfRandom freshTokens).response
        = { status := 200, body := .formatted entries } ∧
      ∃ entry : FormattedContact, entries[0]? = some entry ∧ entry.id = "101" ∧
        entry.roles = ["contractor", "home_owner"] :=
  have h := getContactsWithRoles_roles_of_join sampleConfig twoContactsUpstream halfRandom
    freshTokens { results := some [blankRoleContact, contractorOwner], text := "" }
    ["contractor", "home_owner"] "contractor;home_owner" contractorOwner
    rfl rfl (by decide) (by decide) (by decide) rfl (by decide) rfl
  h.elim fun entries he => ⟨entries, he.1, he.2.2 0 rfl⟩

/-! ## Initialize: skipped failures and reported counts -/

/-- Every `hubspotRequest` call of a handler advances the step counter by
one. -/
theorem request_step (cfg : Config) (up : Upstream) (s : Run)
    (endpoint method : String) (data : Option ReqBody) :
    (request cfg up s endpoint method data).2.step = s.step + 1 := rfl

/-- The creation loop of initialize calls once per contact, whatever the
outcomes: the failures it adds are contact creations, and each contact is
either among the created ones or among the added failures. -/
theorem createContacts_account (cfg : Config) (up : Upstream)
    (contacts : List ContactProperties) :
    ∀ (s : Run) (created : List ApiData),
      (createContacts cfg up contacts s created).2.step = s.step + contacts.length ∧
      ∃ added : List Failure,
        (createContacts cfg up contacts s created).2.failures = s.failures ++ added ∧
        (∀ f ∈ added, f.endpoint = "/crm/v3/objects/contacts" ∧ f.method = "POST") ∧
        (createContacts cfg up contacts s created).1.length + added.length
          = created.length + contacts.length := by
  induction contacts with
  | nil => intro s created; exact ⟨rfl, [], by simp [createContacts], by simp, rfl⟩
  | cons c rest ih =>
    intro s created
    unfold createContacts
    have hreq := request_failures cfg up s "/crm/v3/objects/contacts" "POST" (some (.contact c))
    have hstep := request_step cfg up s "/crm/v3/objects/contacts" "POST" (some (.contact c))
    cases hr : request cfg up s "/crm/v3/objects/contacts" "POST" (some (.contact c)) with
    | mk res s1 =>
      rw [hr] at hreq hstep
      simp only at hstep
      cases res with
      | error e =>
        simp only
        obtain ⟨h1, added, h2, h3, h4⟩ := ih s1 created
        refine ⟨by rw [h1, hstep, List.length_cons]; omega,
          { endpoint := "/crm/v3/objects/contacts", method := "POST", error := e } :: added,
          ?_, ?_, ?_⟩
        · rw [h2, hreq.2 e rfl]; simp
        · intro f hf
          rcases List.mem_cons.mp hf with h | h
          · rw [h]; exact ⟨rfl, rfl⟩
          · exact h3 f h
        · simp only [List.length_cons]; omega
      | ok r =>
        simp only
        obtain ⟨h1, added, h2, h3, h4⟩ := ih s1 (created ++ [r])
        refine ⟨by rw [h1, hstep, List.length_cons]; omega, added, ?_, h3, ?_⟩
        · rw [h2, hreq.1 r rfl]
        · simp only [List.length_append, List.length_cons, List.length_nil] at h4 ⊢; omega

/-- The role loop of initialize calls once per contact and role list, whatever
the outcomes: the failures it adds are `PATCH` calls, and each call is either
among the results or among the added failures. -/
theorem assignRolesLenient_account (cfg : Config) (up : Upstream)
    (contacts : List Contact) :
    ∀ (assignments : List (List String)) (s : Run) (roleResults : List ApiData),
      (assignRolesLenient cfg up contacts assignments s roleResults).2.step
        = s.step + min contacts.length assignments.length ∧
      ∃ added : List Failure,
        (assignRolesLenient cfg up contacts assignments s roleResults).2.failures
          = s.failures ++ added ∧
        (∀ f ∈ added, f.method = "PATCH") ∧
        (assignRolesLenient cfg up contacts assignments s roleResults).1.length + added.length
          = roleResults.length + min contacts.length assignments.length := by
  induction contacts with
  | nil =>
    intro assignments s roleResults
    exact ⟨by simp [assignRolesLenient], [], by simp [assignRolesLenient], by simp,
      by simp [assignRolesLenient]⟩
  | cons c rest ih =>
    intro assignments s roleResults
    cases assignments with
    | nil =>
      exact ⟨by simp [assignRolesLenient], [], by simp [assignRolesLenient], by simp,
        by simp [assignRolesLenient]⟩
    | cons roles more =>
      unfold assignRolesLenient
      have hreq := request_failures cfg up s ("/crm/v3/objects/contacts/" ++ c.id) "PATCH"
        (some (updateData roles))
      have hstep := request_step cfg up s ("/crm/v3/objects/contacts/" ++ c.id) "PATCH"
        (some (updateData roles))
      have hmin : min (c :: rest).length (roles :: more).length
          = min rest.length more.length + 1 := by
        simp only [List.length_cons]; omega
      cases hr : request cfg up s ("/crm/v3/objects/contacts/" ++ c.id) "PATCH"
          (some (updateData roles)) with
      | mk res s1 =>
        rw [hr] at hreq hstep
        simp only at hstep
        cases res with
        | error e =>
          simp only
          obtain ⟨h1, added, h2, h3, h4⟩ := ih more s1 roleResults
          refine ⟨by rw [h1, hstep, hmin]; omega,
            { endpoint := "/crm/v3/objects/contacts/" ++ c.id, method := "PATCH", error := e }
              :: added, ?_, ?_, ?_⟩
          · rw [h2, hreq.2 e rfl]; simp
          · intro f hf
            rcases List.mem_cons.mp hf with h | h
            · rw [h]
            · exact h3 f h
          · rw [hmin]; simp only [List.length_cons]; omega
        | ok r =>
          simp only
          obtain ⟨h1, added, h2, h3, h4⟩ := ih more s1 (roleResults ++ [r])
          refine ⟨by rw [h1, hstep, hmin]; omega, added, ?_, h3, ?_⟩
          · rw [h2, hreq.1 r rfl]
          · rw [hmin]
            simp only [List.length_append, List.length_cons, List.length_nil] at h4 ⊢; omega

/-- The property lookup advances the step counter by one; it returns true
without failure, returns false after a failure that is a 404 response, and
rethrows any failure that is not a 404 response. -/
theorem checkPropertyExists_account (cfg : Config) (up : Upstream) (s : Run) :
    (∀ b, (checkPropertyExists cfg up s).1 = .ok b →
      (checkPropertyExists cfg up s).2.step = s.step + 1 ∧
      ((b = true ∧ (checkPropertyExists cfg up s).2.failures = s.failures) ∨
        (b = false ∧ ∃ e r, e.response = some r ∧ r.status = 404 ∧
          (checkPropertyExists cfg up s).2.failures
            = s.failures ++ [{ endpoint := "/crm/v3/properties/contacts/project_role"
                               method := "GET", error := e }]))) ∧
    (∀ e, (checkPropertyExists cfg up s).1 = .error e →
      (checkPropertyExists cfg up s).2.failures
        = s.failures ++ [{ endpoint := "/crm/v3/properties/contacts/project_role"
                           method := "GET", error := e }] ∧
      ¬ ∃ r, e.response = some r ∧ r.status = 404) := by
  unfold checkPropertyExists
  have hreq := request_failures cfg up s "/crm/v3/properties/contacts/project_role" "GET" none
  have hstep := request_step cfg up s "/crm/v3/properties/contacts/project_role" "GET" none
  cases hr : request cfg up s "/crm/v3/properties/contacts/project_role" "GET" none with
  | mk res s1 =>
    rw [hr] at hreq hstep
    simp only at hstep
    cases res with
    | ok r =>
      simp only
      refine ⟨fun b hb => ⟨hstep, Or.inl ⟨(Except.ok.inj hb).symm, hreq.1 r rfl⟩⟩, ?_⟩
      intro e he
      exact Except.noConfusion he
    | error e =>
      simp only
      by_cases h404 : e.response.map (fun r => r.status) ≠ some 404
      · simp only [if_pos h404]
        refine ⟨fun b hb => Except.noConfusion hb, ?_⟩
        intro e2 he
        have hee : e = e2 := Except.error.inj he
        subst hee
        refine ⟨hreq.2 e rfl, ?_⟩
        rintro ⟨r, hr1, hr2⟩
        exact h404 (by simp [hr1, hr2])
      · simp only [if_neg h404]
        have h2 : e.response.map (fun r => r.status) = some 404 := not_not.mp h404
        obtain ⟨r, hr1, hr2⟩ := Option.map_eq_some'.mp h2
        refine ⟨fun b hb => ⟨hstep, Or.inr ⟨(Except.ok.inj hb).symm, e, r, hr1, hr2,
          hreq.2 e rfl⟩⟩, ?_⟩
        intro e2 he
        exact Except.noConfusion he

/-- The part of initialize after the property step (lines 514-597), from the
state `s2`: either the contact list call throws and is rethrown, or the answer
is 200 with the number of contacts created and of roles assigned, every
failure added being a contact creation or a role update that was skipped. -/
theorem initializeBody_tail_account (cfg : Config) (up : Upstream) (s2 : Run) :
    (∃ e,
      (match request cfg up (createContacts cfg up initializeMockContacts s2 []).2
          "/crm/v3/objects/contacts?limit=20" "GET" none with
        | (.error error, s4) => ((.error error : Except JsError Response), s4)
        | (.ok contactsResponse, s4) =>
          (.ok { status := 200
                 body := .initialized
                   (createContacts cfg up initializeMockContacts s2 []).1.length
                   (assignRolesLenient cfg up (contactsResponse.results.getD [])
                     roleAssignments s4 []).1.length },
            (assignRolesLenient cfg up (contactsResponse.results.getD [])
              roleAssignments s4 []).2)).1 = .error e ∧
      ({ endpoint := "/crm/v3/objects/contacts?limit=20", method := "GET", error := e }
          : Failure) ∈
        (match request cfg up (createContacts cfg up initializeMockContacts s2 []).2
          "/crm/v3/objects/contacts?limit=20" "GET" none with
        | (.error error, s4) => ((.error error : Except JsError Response), s4)
        | (.ok contactsResponse, s4) =>
          (.ok { status := 200
                 body := .initialized
                   (createContacts cfg up initializeMockContacts s2 []).1.length
                   (assignRolesLenient cfg up (contactsResponse.results.getD [])
                     roleAssignments s4 []).1.length },
            (assignRolesLenient cfg up (contactsResponse.results.getD [])
              roleAssignments s4 []).2)).2.failures) ∨
    (∃ (created assigned : Nat) (C U : List Failure),
      (match request cfg up (createContacts cfg up initializeMockContacts s2 []).2
          "/crm/v3/objects/contacts?limit=20" "GET" none with
        | (.error error, s4) => ((.error error : Except JsError Response), s4)
        | (.ok contactsResponse, s4) =>
          (.ok { status := 200
                 body := .initialized
                   (createContacts cfg up initializeMockContacts s2 []).1.length
                   (assignRolesLenient cfg up (contactsResponse.results.getD [])
                     roleAssignments s4 []).1.length },
            (assignRolesLenient cfg up (contactsResponse.results.getD [])
              roleAssignments s4 []).2)).1 = .ok { status := 200, body := .initialized created assigned } ∧
      (match request cfg up (createContacts cfg up initializeMockContacts s2 []).2
          "/crm/v3/objects/contacts?limit=20" "GET" none with
        | (.error error, s4) => ((.error error : Except JsError Response), s4)
        | (.ok contactsResponse, s4) =>
          (.ok { status := 200
                 body := .initialized
                   (createContacts cfg up initializeMockContacts s2 []).1.length
                   (assignRolesLenient cfg up (contactsResponse.results.getD [])
                     roleAssignments s4 []).1.length },
            (assignRolesLenient cfg up (contactsResponse.results.getD [])
              roleAssignments s4 []).2)).2.failures = s2.failures ++ C ++ U ∧
      (∀ f ∈ C, f.endpoint = "/crm/v3/objects/contacts" ∧ f.method = "POST") ∧
      (∀ f ∈ U, f.method = "PATCH") ∧
      created + C.length = initializeMockContacts.length ∧
      (match request cfg up (createContacts cfg up initializeMockContacts s2 []).2
          "/crm/v3/objects/contacts?limit=20" "GET" none with
        | (.error error, s4) => ((.error error : Except JsError Response), s4)
        | (.ok contactsResponse, s4) =>
          (.ok { status := 200
                 body := .initialized
                   (createContacts cfg up initializeMockContacts s2 []).1.length
                   (assignRolesLenient cfg up (contactsResponse.results.getD [])
                     roleAssignments s4 []).1.length },
            (assignRolesLenient cfg up (contactsResponse.results.getD [])
              roleAssignments s4 []).2)).2.step = s2.step + initializeMockContacts.length + 1 + assigned + U.length) := by
  obtain ⟨hc1, C, hc2, hc3, hc4⟩ := createContacts_account cfg up initializeMockContacts s2 []
  have hreq := request_failures cfg up (createContacts cfg up initializeMockContacts s2 []).2
    "/crm/v3/objects/contacts?limit=20" "GET" none
  have hstep := request_step cfg up (createContacts cfg up initializeMockContacts s2 []).2
    "/crm/v3/objects/contacts?limit=20" "GET" none
  cases hr : request cfg up (createContacts cfg up initializeMockContacts s2 []).2
      "/crm/v3/objects/contacts?limit=20" "GET" none with
  | mk res s4 =>
    rw [hr] at hreq hstep
    simp only at hstep
    cases res with
    | error e =>
      left
      refine ⟨e, rfl, ?_⟩
      simp only
      rw [hreq.2 e rfl]
      simp
    | ok r =>
      right
      obtain ⟨ha1, U, ha2, ha3, ha4⟩ :=
        assignRolesLenient_account cfg up (r.results.getD []) roleAssignments s4 []
      refine ⟨_, _, C, U, rfl, ?_, hc3, ha3, ?_, ?_⟩
      · simp only
        rw [ha2, hreq.1 r rfl, hc2]
      · simpa using hc4
      · simp only
        rw [ha1, hstep, hc1]
        simp only [List.length_nil, Nat.zero_add] at ha4
        omega

/-- The body of initialize on an authenticated store: either it throws, and
then a call that is neither the property lookup answered 404, nor a contact
creation, nor a role update has thrown; or it answers 200 with the counts, the
failures added being at most one 404 lookup, then skipped contact creations,
then skipped role updates. -/
theorem initializeBody_account (cfg : Config) (up : Upstream) (s : Run)
    (hauth : isAuthenticated s.tokens = true) :
    (∃ e f, (initializeBody cfg up s).1 = .error e ∧ f ∈ (initializeBody cfg up s).2.failures ∧
      ¬ ((f.endpoint = "/crm/v3/properties/contacts/project_role" ∧ f.method = "GET" ∧
          ∃ r, f.error.response = some r ∧ r.status = 404) ∨
          (f.endpoint = "/crm/v3/objects/contacts" ∧ f.method = "POST") ∨
          f.method = "PATCH")) ∨
    (∃ (created assigned : Nat) (L C U : List Failure),
      (initializeBody cfg up s).1 = .ok { status := 200, body := .initialized created assigned } ∧
      (initializeBody cfg up s).2.failures = s.failures ++ L ++ C ++ U ∧
      L.length ≤ 1 ∧
      (∀ f ∈ L, (f.endpoint = "/crm/v3/properties/contacts/project_role" ∧ f.method = "GET" ∧
          ∃ r, f.error.response = some r ∧ r.status = 404)) ∧
      (∀ f ∈ C, f.endpoint = "/crm/v3/objects/contacts" ∧ f.method = "POST") ∧
      (∀ f ∈ U, f.method = "PATCH") ∧
      created + C.length = initializeMockContacts.length ∧
      (initializeBody cfg up s).2.step
        = s.step + L.length + 2 + initializeMockContacts.length + assigned + U.length) := by
  have hnotList : ∀ e : JsError, ∀ f : Failure,
      f = { endpoint := "/crm/v3/objects/contacts?limit=20", method := "GET", error := e } →
      ¬ ((f.endpoint = "/crm/v3/properties/contacts/project_role" ∧ f.method = "GET" ∧
          ∃ r, f.error.response = some r ∧ r.status = 404) ∨
          (f.endpoint = "/crm/v3/objects/contacts" ∧ f.method = "POST") ∨
          f.method = "PATCH") := by
    intro e f hf
    subst hf
    rintro (⟨h, -, -⟩ | ⟨h, -⟩ | h) <;> simp at h
  have hnotProp : ∀ e : JsError, ∀ f : Failure,
      f = { endpoint := "/crm/v3/properties/contacts", method := "POST", error := e } →
      ¬ ((f.endpoint = "/crm/v3/properties/contacts/project_role" ∧ f.method = "GET" ∧
          ∃ r, f.error.response = some r ∧ r.status = 404) ∨
          (f.endpoint = "/crm/v3/objects/contacts" ∧ f.method = "POST") ∨
          f.method = "PATCH") := by
    intro e f hf
    subst hf
    rintro (⟨h, -, -⟩ | ⟨h, -⟩ | h) <;> simp at h
  unfold initializeBody
  obtain ⟨hcok, hcerr⟩ := checkPropertyExists_account cfg up s
  cases hc : checkPropertyExists cfg up s with
  | mk res s1 =>
    rw [hc] at hcok hcerr
    simp only [hauth, Bool.not_true, Bool.false_eq_true, if_false]
    cases res with
    | error e =>
      left
      obtain ⟨hf, h404⟩ := hcerr e rfl
      simp only at hf
      refine ⟨e, { endpoint := "/crm/v3/properties/contacts/project_role"
                   method := "GET", error := e }, rfl, ?_, ?_⟩
      · simp only
        rw [hf]
        simp
      · rintro (⟨-, -, h⟩ | ⟨h, -⟩ | h)
        · exact h404 h
        · simp at h
        · simp at h
    | ok b =>
      obtain ⟨hs1, hb⟩ := hcok b rfl
      simp only at hs1 hb
      cases b with
      | true =>
        simp only [Bool.not_true, Bool.false_eq_true, if_false]
        have hf1 : s1.failures = s.failures := by
          rcases hb with ⟨-, h⟩ | ⟨h, -⟩
          · exact h
          · exact absurd h (by decide)
        rcases initializeBody_tail_account cfg up s1 with ⟨e, h1, h2⟩ |
          ⟨created, assigned, C, U, h1, h2, h3, h4, h5, h6⟩
        · exact Or.inl ⟨e, _, h1, h2, hnotList e _ rfl⟩
        · refine Or.inr ⟨created, assigned, [], C, U, h1, ?_, by simp, by simp, h3, h4, h5, ?_⟩
          · rw [h2, hf1]; simp
          · rw [h6, hs1]; simp only [List.length_nil]; omega
      | false =>
        simp only [Bool.not_false, if_true]
        obtain ⟨e0, r0, hr1, hr2, hf1⟩ : ∃ e r, e.response = some r ∧ r.status = 404 ∧
            s1.failures = s.failures ++ [{ endpoint := "/crm/v3/properties/contacts/project_role"
                                           method := "GET", error := e }] := by
          rcases hb with ⟨h, -⟩ | ⟨-, h⟩
          · exact absurd h (by decide)
          · exact h
        have hreq := request_failures cfg up s1 "/crm/v3/properties/contacts" "POST"
          (some (.property propertyData))
        have hstep := request_step cfg up s1 "/crm/v3/properties/contacts" "POST"
          (some (.property propertyData))
        cases hr : request cfg up s1 "/crm/v3/properties/contacts" "POST"
            (some (.property propertyData)) with
        | mk res2 s2 =>
          rw [hr] at hreq hstep
          simp only at hstep
          cases res2 with
          | error e =>
            left
            refine ⟨e, { endpoint := "/crm/v3/properties/contacts", method := "POST"
                         error := e }, rfl, ?_, hnotProp e _ rfl⟩
            simp only
            rw [hreq.2 e rfl]
            simp
          | ok r =>
            simp only
            rcases initializeBody_tail_account cfg up s2 with ⟨e, h1, h2⟩ |
              ⟨created, assigned, C, U, h1, h2, h3, h4, h5, h6⟩
            · exact Or.inl ⟨e, _, h1, h2, hnotList e _ rfl⟩
            · refine Or.inr ⟨created, assigned,
                [{ endpoint := "/crm/v3/properties/contacts/project_role"
                   method := "GET", error := e0 }], C, U, h1, ?_, by simp, ?_, h3, h4, h5, ?_⟩
              · rw [h2, hreq.1 r rfl, hf1]
              · intro f hf
                rw [List.mem_singleton.mp hf]
                exact ⟨rfl, rfl, r0, hr1, hr2⟩
              · rw [h6, hstep, hs1]; simp only [List.length_singleton]; omega

/-- C18 (amended): every handler responds 200, 401 or 500. Contacts-with-roles,
populate-contacts and assign-roles respond 200 only when no `hubspotRequest`
call made while handling the request threw; create-project-role-property
responds 200 only when the sole call that threw, if any, is the property lookup
answered 404. Initialize responds 200 only when every call that threw is the
property lookup answered 404, one of its contact-creation calls
(`POST /crm/v3/objects/contacts`) or one of its role-update calls (`PATCH`),
so a failure of its property lookup (other than 404), property creation or
contact list call yields 401 or 500. Failed contact creations and role updates
of initialize are skipped: on an authenticated store, when every call that
threw is of these kinds the handler responds 200; both loops make one call per
item whatever the outcomes; and the 200 body reports the counts of the calls
that succeeded, that is, the log of thrown calls splits into at most one 404
lookup, the skipped creations and the skipped updates, `contactsCreated` plus
the skipped creations is the number of mock contacts, and every call made is
the property step, the list call, a creation, a counted role update or a
skipped one. A failed token-endpoint or API call makes the `hubspotRequest`
that issued it throw, so `failures` holds every failed upstream call. -/
theorem handlers_surface_failures (cfg : Config) (up : Upstream) (random : Nat → ℚ)
    (tokens : Tokens) :
    (((getContactsWithRoles cfg up random tokens).response.status = 200 ∨
        (getContactsWithRoles cfg up random tokens).response.status = 401 ∨
        (getContactsWithRoles cfg up random tokens).response.status = 500) ∧
      ((getContactsWithRoles cfg up random tokens).response.status = 200 →
        (getContactsWithRoles cfg up random tokens).run.failures = [])) ∧
    (((postPopulateContacts cfg up tokens).response.status = 200 ∨
        (postPopulateContacts cfg up tokens).response.status = 401 ∨
        (postPopulateContacts cfg up tokens).response.status = 500) ∧
      ((postPopulateContacts cfg up tokens).response.status = 200 →
        (postPopulateContacts cfg up tokens).run.failures = [])) ∧
    (((postAssignRoles cfg up tokens).response.status = 200 ∨
        (postAssignRoles cfg up tokens).response.status = 401 ∨
        (postAssignRoles cfg up tokens).response.status = 500) ∧
      ((postAssignRoles cfg up tokens).response.status = 200 →
        (postAssignRoles cfg up tokens).run.failures = [])) ∧
    (((postCreateProjectRoleProperty cfg up tokens).response.status = 200 ∨
        (postCreateProjectRoleProperty cfg up tokens).response.status = 401 ∨
        (postCreateProjectRoleProperty cfg up tokens).response.status = 500) ∧
      ((postCreateProjectRoleProperty cfg up tokens).response.status = 200 →
        ∀ f, f ∈ (postCreateProjectRoleProperty cfg up tokens).run.failures →
          (f.endpoint = "/crm/v3/properties/contacts/project_role" ∧ f.method = "GET" ∧
          ∃ r, f.error.response = some r ∧ r.status = 404))) ∧
    (((postInitialize cfg up tokens).response.status = 200 ∨
        (postInitialize cfg up tokens).response.status = 401 ∨
        (postInitialize cfg up tokens).response.status = 500) ∧
      ((postInitialize cfg up tokens).response.status = 200 →
        ∀ f, f ∈ (postInitialize cfg up tokens).run.failures →
          (f.endpoint = "/crm/v3/properties/contacts/project_role" ∧ f.method = "GET" ∧
          ∃ r, f.error.response = some r ∧ r.status = 404) ∨
          (f.endpoint = "/crm/v3/objects/contacts" ∧ f.method = "POST") ∨
          f.method = "PATCH")) ∧
    (isAuthenticated tokens = true →
      (∀ f, f ∈ (postInitialize cfg up tokens).run.failures →
        ((f.endpoint = "/crm/v3/properties/contacts/project_role" ∧ f.method = "GET" ∧
          ∃ r, f.error.response = some r ∧ r.status = 404) ∨
          (f.endpoint = "/crm/v3/objects/contacts" ∧ f.method = "POST") ∨
          f.method = "PATCH")) →
      (postInitialize cfg up tokens).response.status = 200) ∧
    ((postInitialize cfg up tokens).response.status = 200 →
      ∃ (created assigned : Nat) (L C U : List Failure),
        (postInitialize cfg up tokens).response.body = .initialized created assigned ∧
        (postInitialize cfg up tokens).run.failures = L ++ C ++ U ∧
        L.length ≤ 1 ∧
        (∀ f ∈ L, (f.endpoint = "/crm/v3/properties/contacts/project_role" ∧ f.method = "GET" ∧
          ∃ r, f.error.response = some r ∧ r.status = 404)) ∧
        (∀ f ∈ C, f.endpoint = "/crm/v3/objects/contacts" ∧ f.method = "POST") ∧
        (∀ f ∈ U, f.method = "PATCH") ∧
        created + C.length = initializeMockContacts.length ∧
        (postInitialize cfg up tokens).run.step
          = L.length + 2 + initializeMockContacts.length + assigned + U.length) ∧
    (∀ (contacts : List ContactProperties) (s : Run) (created : List ApiData),
      (createContacts cfg up contacts s created).2.step = s.step + contacts.length) ∧
    (∀ (contacts : List Contact) (assignments : List (List String)) (s : Run)
        (roleResults : List ApiData),
      (assignRolesLenient cfg up contacts assignments s roleResults).2.step
        = s.step + min contacts.length assignments.length) := by
  refine ⟨?_, ?_, ?_, ?_, ?_, ?_, ?_, ?_, ?_⟩
  · have h := tryCatch_surfaces contactsCatch
      (contactsWithRolesBody cfg up random (Run.start tokens))
      ((contactsWithRolesBody cfg up random (Run.start tokens)).2.failures = [])
      (fun e => (catch_status e).1)
      (fun resp hb => contactsWithRolesBody_ok cfg up random (Run.start tokens) resp hb)
    simpa only [getContactsWithRoles, tryCatch_run] using h
  · have h := tryCatch_surfaces setupCatch
      (populateContactsBody cfg up (Run.start tokens))
      ((populateContactsBody cfg up (Run.start tokens)).2.failures = [])
      (fun e => (catch_status e).2)
      (fun resp hb => populateContactsBody_ok cfg up (Run.start tokens) resp hb)
    simpa only [postPopulateContacts, tryCatch_run] using h
  · have h := tryCatch_surfaces setupCatch
      (assignRolesBody cfg up (Run.start tokens))
      ((assignRolesBody cfg up (Run.start tokens)).2.failures = [])
      (fun e => (catch_status e).2)
      (fun resp hb => assignRolesBody_ok cfg up (Run.start tokens) resp hb)
    simpa only [postAssignRoles, tryCatch_run] using h
  · have h := tryCatch_surfaces setupCatch
      (createProjectRolePropertyBody cfg up (Run.start tokens))
      (∀ f, f ∈ (createProjectRolePropertyBody cfg up (Run.start tokens)).2.failures →
          (f.endpoint = "/crm/v3/properties/contacts/project_role" ∧ f.method = "GET" ∧
          ∃ r, f.error.response = some r ∧ r.status = 404))
      (fun e => (catch_status e).2)
      (fun resp hb => by
        rcases createProjectRolePropertyBody_ok cfg up (Run.start tokens) resp hb with
          h1 | ⟨h1, h2⟩
        · exact Or.inl h1
        · refine Or.inr ⟨h1, fun f hf => ?_⟩
          rcases h2 f hf with h3 | h3
          · exact absurd h3 (List.not_mem_nil f)
          · exact h3)
    simpa only [postCreateProjectRoleProperty, tryCatch_run] using h
  · have h := tryCatch_surfaces setupCatch
      (initializeBody cfg up (Run.start tokens))
      (∀ f, f ∈ (initializeBody cfg up (Run.start tokens)).2.failures →
          (f.endpoint = "/crm/v3/properties/contacts/project_role" ∧ f.method = "GET" ∧
          ∃ r, f.error.response = some r ∧ r.status = 404) ∨
          (f.endpoint = "/crm/v3/objects/contacts" ∧ f.method = "POST") ∨
          f.method = "PATCH")
      (fun e => (catch_status e).2)
      (fun resp hb => by
        rcases initializeBody_ok cfg up (Run.start tokens) resp hb with h1 | ⟨h1, h2⟩
        · exact Or.inl h1
        · refine Or.inr ⟨h1, fun f hf => ?_⟩
          rcases h2 f hf with h3 | h3
          · exact absurd h3 (List.not_mem_nil f)
          · exact h3)
    simpa only [postInitialize, tryCatch_run] using h
  · intro hauth hall
    rcases initializeBody_account cfg up (Run.start tokens) hauth with
      ⟨e, f, -, h2, h3⟩ | ⟨created, assigned, L, C, U, h1, -⟩
    · refine absurd (hall f ?_) h3
      rw [postInitialize, tryCatch_run]
      exact h2
    · simp [postInitialize, tryCatch, h1]
  · intro h200
    by_cases hauth : isAuthenticated tokens = true
    · rcases initializeBody_account cfg up (Run.start tokens) hauth with
        ⟨e, f, h1, -, -⟩ | ⟨created, assigned, L, C, U, h1, h2, h3, h4, h5, h6, h7, h8⟩
      · have hresp : (postInitialize cfg up tokens).response = setupCatch e := by
          rw [postInitialize, tryCatch_error _ _ e h1]
        rw [hresp] at h200
        rcases (catch_status e).2 with h | h <;> rw [h] at h200 <;> exact absurd h200 (by decide)
      · refine ⟨created, assigned, L, C, U, ?_, ?_, h3, h4, h5, h6, h7, ?_⟩
        · simp [postInitialize, tryCatch, h1]
        · rw [postInitialize, tryCatch_run, h2]
          simp [Run.start]
        · rw [postInitialize, tryCatch_run, h8]
          simp [Run.start]
    · have hfalse : isAuthenticated tokens = false := by
        simpa using hauth
      have hresp : (postInitialize cfg up tokens).response = unauthenticatedResponse := by
        simp [postInitialize, initializeBody, Run.start, hfalse, tryCatch]
      rw [hresp] at h200
      exact absurd h200 (by decide)
  · intro contacts s created
    exact (createContacts_account cfg up contacts s created).1
  · intro contacts assignments s roleResults
    exact (assignRolesLenient_account cfg up contacts assignments s roleResults).1

/-- Witness of `handlers_surface_failures`: with every API call answered `409`,
populate-contacts has a failed call and therefore does not respond 200;
initialize on `duplicateUpstream`, whose two contact creations are answered
`409`, responds 200, its failures are all contact creations, and its body
carries the two counts. -/
theorem handlers_surface_failures_witness :
    (postPopulateContacts sampleConfig conflictUpstream freshTokens).run.failures ≠ [] ∧
    (postPopulateContacts sampleConfig conflictUpstream freshTokens).response.status ≠ 200 ∧
    (∀ f, f ∈ (postInitialize sampleConfig duplicateUpstream freshTokens).run.failures →
      (f.endpoint = "/crm/v3/properties/contacts/project_role" ∧ f.method = "GET" ∧
          ∃ r, f.error.response = some r ∧ r.status = 404) ∨
      (f.endpoint = "/crm/v3/objects/contacts" ∧ f.method = "POST") ∨
      f.method = "PATCH") ∧
    (postInitialize sampleConfig duplicateUpstream freshTokens).response.status = 200 ∧
    (∃ created assigned : Nat,
      (postInitialize sampleConfig duplicateUpstream freshTokens).response.body
        = .initialized created assigned) :=
  have hne : (postPopulateContacts sampleConfig conflictUpstream freshTokens).run.failures
      ≠ [] := by
    rw [show (postPopulateContacts sampleConfig conflictUpstream freshTokens).run.failures
      = [{ endpoint := "/crm/v3/objects/contacts", method := "POST", error := conflictError }]
      from rfl]
    exact List.cons_ne_nil _ _
  have hall := (handlers_surface_failures sampleConfig duplicateUpstream halfRandom
      freshTokens).2.2.2.2.1.2 rfl
  ⟨hne,
   fun h200 => hne ((handlers_surface_failures sampleConfig conflictUpstream halfRandom
      freshTokens).2.1.2 h200),
   hall,
   (handlers_surface_failures sampleConfig duplicateUpstream halfRandom
      freshTokens).2.2.2.2.2.1 rfl hall,
   ((handlers_surface_failures sampleConfig duplicateUpstream halfRandom
      freshTokens).2.2.2.2.2.2.1 rfl).elim
      fun created h => h.elim fun assigned h2 =>
        h2.elim fun L h3 => h3.elim fun C h4 => h4.elim fun U h5 => ⟨created, assigned, h5.1⟩⟩

end Prostruct
